import Mathlib

/-!
Verification of the sale lifecycle engine of the Digikhata backend.

The definitions below are a shallow embedding of the sale
creation/approval/rejection controllers and the realtime socket handlers:
  - src/controllers/SaleController1.ts  (EnhancedSaleController)
  - src/controllers/SaleController.ts   (basic SaleController, wired in saleRoutes)
  - src/controllers/AdminController.ts  (live admin controller, wired in adminRoutes)
  - a legacy AdminController variant (approveSale with timestamp logging)
  - src/controllers/EmployeeController.ts (sellProduct)
  - src/socketHandlers/salesSocketHandlers.ts
The database is modelled as explicit lists of rows; each handler is a pure
function from the database state and its inputs to a result record holding
the new state, the response fields, and the realtime events it emitted.
Monetary amounts and quantities are integers, timestamps are naturals.
-/

/-- Role of an authenticated user (UserRole enum). -/
inductive Role where
  | admin
  | employee
  deriving DecidableEq, Repr

/-- The fields of a User row that the sale lifecycle reads. -/
structure User where
  id : Nat
  role : Role
  firstName : String
  lastName : String
  deriving DecidableEq, Repr

/-- Status column of a sale (enum pending / approved / rejected). -/
inductive SaleStatus where
  | pending
  | approved
  | rejected
  deriving DecidableEq, Repr

/-- The string stored in the status column, used in error messages. -/
def SaleStatus.str : SaleStatus → String
  | .pending => "pending"
  | .approved => "approved"
  | .rejected => "rejected"

/-- Product row: stock, pricing and the running aggregates. -/
structure Product where
  id : Nat
  price : Int
  costPrice : Int
  qtyInStock : Int
  totalSales : Int
  totalProfit : Int
  lastSaleDate : Option Nat
  deriving DecidableEq, Repr

/-- Sale row, with the economic fields computed at creation. -/
structure Sale where
  id : Nat
  saleNumber : String
  productId : Nat
  qtySold : Int
  unitPrice : Int
  unitCost : Int
  totalPrice : Int
  totalCost : Int
  profit : Int
  status : SaleStatus
  soldById : Nat
  approvedById : Option Nat
  approvedAt : Option Nat
  notes : Option String
  salesDate : Nat
  deriving DecidableEq, Repr

/-- StockMovement row; the type column holds the source strings "in" / "out". -/
structure StockMovement where
  productId : Nat
  type : String
  quantity : Int
  reason : String
  notes : Option String
  recordedById : Nat
  movementDate : Nat
  deriving DecidableEq, Repr

/-- The ledger store: the three tables the lifecycle engine touches. -/
structure DB where
  products : List Product
  sales : List Sale
  movements : List StockMovement
  deriving DecidableEq, Repr

/-- A realtime event emitted to a room.  Only the payload fields that the
claims inspect are modelled: the fresh pending count, the action tag and the
bulk counters of a pending-count / bulk-summary payload. -/
structure Event where
  room : String
  name : String
  count : Option Nat := none
  action : Option String := none
  totalProcessed : Option Nat := none
  successCount : Option Nat := none
  failureCount : Option Nat := none
  deriving DecidableEq, Repr

/-- Result of a controller call or realtime command: the committed state,
the response fields, and the events that were emitted after commit.
ackDelivered records whether the response or acknowledgment callback
actually reaches the caller; when it is false no payload is delivered and
the response fields are unused. -/
structure HttpResult where
  db : DB
  status : Nat
  success : Bool
  message : String
  available : Option Int := none
  requested : Option Int := none
  pendingCount : Option Nat := none
  events : List Event := []
  ackDelivered : Bool := true
  deriving DecidableEq, Repr

/-- findOne(Product, \x7b where: \x7b id \x7d \x7d). -/
def findProduct (db : DB) (pid : Nat) : Option Product :=
  db.products.find? (fun p => p.id == pid)

/-- findOne(Sale, \x7b where: \x7b id \x7d \x7d). -/
def findSale (db : DB) (sid : Nat) : Option Sale :=
  db.sales.find? (fun s => s.id == sid)

/-- manager.update(Product, pid, ...): rewrite the matching rows. -/
def updateProduct (ps : List Product) (pid : Nat) (f : Product → Product) : List Product :=
  ps.map (fun p => if p.id == pid then f p else p)

/-- manager.update(Sale, sid, ...) / save of a modified sale row. -/
def updateSale (ss : List Sale) (sid : Nat) (f : Sale → Sale) : List Sale :=
  ss.map (fun s => if s.id == sid then f s else s)

/-- count(Sale, \x7b where: \x7b status: "pending" \x7d \x7d): the fresh
pending-count query issued after each transition. -/
def countPending (db : DB) : Nat :=
  (db.sales.filter (fun s => s.status == SaleStatus.pending)).length

/-- String(n).padStart(6, "0"). -/
def pad6 (n : Nat) : String :=
  let s := toString n
  String.mk (List.replicate (6 - s.length) '0') ++ s

/-- The sale number generated from the current row count. -/
def saleNumberFor (db : DB) : String :=
  "SALE-" ++ pad6 (db.sales.length + 1)

/-- Whether a character list occurs as a contiguous run of another. -/
def charListHas (pat : List Char) : List Char → Bool
  | [] => pat.isEmpty
  | c :: rest => pat.isPrefixOf (c :: rest) || charListHas pat rest

/-- Substring test, used to state that an error message reports the
current status of the sale. -/
def strContains (s pat : String) : Bool :=
  charListHas pat.toList s.toList

/-- The test reason.trim().length === 0 of the reject handlers: the string
has no character beyond whitespace. -/
def blank (s : String) : Bool := s.toList.all (fun ch => ch.isWhitespace)

/-- EnhancedSaleController.createSale (SaleController1.ts) and the basic
SaleController.createSale, which perform the same guarded transaction:
route validation (qtySold at least 1), authentication, product lookup,
stock check, sale-number generation, snapshot of price/costPrice, insert of
the pending sale, stock decrement, and one StockMovement of type "out". -/
def createSale (db : DB) (productId : Nat) (qtySold : Int) (user : Option User)
    (customerName : Option String) (now : Nat) : HttpResult :=
  if qtySold < 1 then
    { db := db, status := 400, success := false, message := "Validation failed" }
  else
    match user with
    | none => { db := db, status := 401, success := false, message := "Authentication required" }
    | some u =>
      match findProduct db productId with
      | none => { db := db, status := 404, success := false, message := "Product not found" }
      | some product =>
        if product.qtyInStock < qtySold then
          { db := db, status := 400, success := false, message := "Insufficient stock",
            available := some product.qtyInStock, requested := some qtySold }
        else
          let saleNumber := saleNumberFor db
          let unitPrice := product.price
          let unitCost := product.costPrice
          let totalPrice := unitPrice * qtySold
          let totalCost := unitCost * qtySold
          let profit := totalPrice - totalCost
          let sale : Sale :=
            { id := db.sales.length + 1, saleNumber := saleNumber, productId := productId,
              qtySold := qtySold, unitPrice := unitPrice, unitCost := unitCost,
              totalPrice := totalPrice, totalCost := totalCost, profit := profit,
              status := .pending, soldById := u.id, approvedById := none,
              approvedAt := none, notes := none, salesDate := now }
          let movement : StockMovement :=
            { productId := productId, type := "out", quantity := qtySold,
              reason := "Sale " ++ saleNumber ++ " - Pending approval",
              notes := some ("Sale to " ++ customerName.getD "Customer"),
              recordedById := u.id, movementDate := now }
          { db := { products := updateProduct db.products productId
                      (fun p => { p with qtyInStock := product.qtyInStock - qtySold }),
                    sales := db.sales ++ [sale],
                    movements := db.movements ++ [movement] },
            status := 201, success := true,
            message := "Sale created successfully, awaiting approval" }

/-- EmployeeController.sellProduct: same guarded creation transaction as
createSale, but the commit happens right after the stock decrement, with no
StockMovement row inserted. -/
def sellProduct (db : DB) (productId : Nat) (qtySold : Int) (user : Option User)
    (now : Nat) : HttpResult :=
  if qtySold < 1 then
    { db := db, status := 400, success := false, message := "Validation failed" }
  else
    match user with
    | none => { db := db, status := 401, success := false, message := "Authentication required" }
    | some u =>
      match findProduct db productId with
      | none => { db := db, status := 404, success := false, message := "Product not found" }
      | some product =>
        if product.qtyInStock < qtySold then
          { db := db, status := 400, success := false, message := "Insufficient stock",
            available := some product.qtyInStock, requested := some qtySold }
        else
          let saleNumber := saleNumberFor db
          let unitPrice := product.price
          let unitCost := product.costPrice
          let totalPrice := unitPrice * qtySold
          let totalCost := unitCost * qtySold
          let profit := totalPrice - totalCost
          let sale : Sale :=
            { id := db.sales.length + 1, saleNumber := saleNumber, productId := productId,
              qtySold := qtySold, unitPrice := unitPrice, unitCost := unitCost,
              totalPrice := totalPrice, totalCost := totalCost, profit := profit,
              status := .pending, soldById := u.id, approvedById := none,
              approvedAt := none, notes := none, salesDate := now }
          { db := { products := updateProduct db.products productId
                      (fun p => { p with qtyInStock := product.qtyInStock - qtySold }),
                    sales := db.sales ++ [sale],
                    movements := db.movements },
            status := 201, success := true,
            message := "Sale recorded successfully, awaiting approval" }

/-- The sale-row update performed by an approval: status, approver, and
the approval timestamp; notes are overwritten only when notes were sent. -/
def approveFields (adminId : Nat) (notes : Option String) (now : Nat) (s : Sale) : Sale :=
  { s with status := .approved, approvedById := some adminId,
           approvedAt := some now,
           notes := match notes with | some n => some n | none => s.notes }

/-- The product-row update performed by an approval: the running
aggregates and the last sale date; stock is untouched. -/
def approveAggregates (sale : Sale) (now : Nat) (p : Product) : Product :=
  { p with totalSales := p.totalSales + sale.totalPrice,
           totalProfit := p.totalProfit + sale.profit,
           lastSaleDate := some now }

/-- AdminController.approveSale (the live admin controller).  Admin-only;
one transaction sets the sale row and the product aggregates; after commit
the socket emissions are wrapped in an inner try/catch, so when an emission
throws (emitOk = false) the events are lost but the HTTP response is the
same. -/
def approveSale (db : DB) (saleId : Nat) (user : Option User) (notes : Option String)
    (now : Nat) (emitOk : Bool) : HttpResult :=
  match user with
  | none => { db := db, status := 403, success := false, message := "Only admins can approve sales" }
  | some u =>
    if u.role != Role.admin then
      { db := db, status := 403, success := false, message := "Only admins can approve sales" }
    else
      match findSale db saleId with
      | none => { db := db, status := 404, success := false, message := "Sale not found" }
      | some sale =>
        if sale.status != SaleStatus.pending then
          { db := db, status := 400, success := false,
            message := "Sale is " ++ sale.status.str ++ ", not pending approval" }
        else
          let db' : DB :=
            { db with sales := updateSale db.sales saleId (approveFields u.id notes now),
                      products := updateProduct db.products sale.productId
                        (approveAggregates sale now) }
          let events : List Event :=
            if emitOk then
              [ { room := "employee_" ++ toString sale.soldById ++ "_sales",
                  name := "sale_status_updated" },
                { room := "admin_sales_room", name := "sale_approved_broadcast" },
                { room := "admin_sales_room", name := "pending_count_updated",
                  count := some (countPending db'), action := some "approved" } ]
            else []
          { db := db', status := 200, success := true,
            message := "Sale approved successfully", events := events }

/-- The sale-row update performed by a rejection in the live admin
controller and the realtime handler. -/
def rejectFields (adminId : Nat) (r : String) (now : Nat) (s : Sale) : Sale :=
  { s with status := .rejected, approvedById := some adminId,
           approvedAt := some now, notes := some r }

/-- The StockMovement appended by a rejection. -/
def rejectMovement (u : User) (r : String) (now : Nat) (sale : Sale) : StockMovement :=
  { productId := sale.productId, type := "in", quantity := sale.qtySold,
    reason := "Sale " ++ sale.saleNumber ++ " rejection - Stock restored",
    notes := some ("Rejected by " ++ u.firstName ++ " " ++ u.lastName ++ ": " ++ r),
    recordedById := u.id, movementDate := now }

/-- AdminController.rejectSale (the live admin controller).  Admin-only;
requires a non-empty reason; one transaction sets the sale row, restores
the stock and appends one StockMovement of type "in"; the emissions after
commit are in an inner try/catch (emitOk as in approveSale). -/
def rejectSale (db : DB) (saleId : Nat) (user : Option User) (reason : Option String)
    (now : Nat) (emitOk : Bool) : HttpResult :=
  match user with
  | none => { db := db, status := 403, success := false, message := "Only admins can reject sales" }
  | some u =>
    if u.role != Role.admin then
      { db := db, status := 403, success := false, message := "Only admins can reject sales" }
    else
      match reason with
      | none => { db := db, status := 400, success := false, message := "Rejection reason is required" }
      | some r =>
        if blank r then
          { db := db, status := 400, success := false, message := "Rejection reason is required" }
        else
          match findSale db saleId with
          | none => { db := db, status := 404, success := false, message := "Sale not found" }
          | some sale =>
            if sale.status != SaleStatus.pending then
              { db := db, status := 400, success := false,
                message := "Sale is " ++ sale.status.str ++ ", not pending approval" }
            else
              let db' : DB :=
                { products := updateProduct db.products sale.productId
                    (fun p => { p with qtyInStock := p.qtyInStock + sale.qtySold }),
                  sales := updateSale db.sales saleId (rejectFields u.id r now),
                  movements := db.movements ++ [rejectMovement u r now sale] }
              let events : List Event :=
                if emitOk then
                  [ { room := "employee_" ++ toString sale.soldById ++ "_sales",
                      name := "sale_status_updated" },
                    { room := "admin_sales_room", name := "sale_rejected_broadcast" },
                    { room := "admin_sales_room", name := "pending_count_updated",
                      count := some (countPending db'), action := some "rejected" } ]
                else []
              { db := db', status := 200, success := true,
                message := "Sale rejected successfully and stock restored", events := events }

/-- SaleController.approveSale (the basic controller wired on
PATCH /:id/approve in saleRoutes).  Checks only that a user is present
(401 otherwise), not the role; sets status and approver (no approvedAt)
and updates the product aggregates. -/
def basicApproveSale (db : DB) (saleId : Nat) (user : Option User) (now : Nat) : HttpResult :=
  match user with
  | none => { db := db, status := 401, success := false, message := "Authentication required" }
  | some u =>
    match findSale db saleId with
    | none => { db := db, status := 404, success := false, message := "Sale not found" }
    | some sale =>
      if sale.status != SaleStatus.pending then
        { db := db, status := 400, success := false,
          message := "Sale is already " ++ sale.status.str }
      else
        { db := { db with
                  sales := updateSale db.sales saleId
                    (fun s => { s with status := .approved, approvedById := some u.id }),
                  products := updateProduct db.products sale.productId
                    (fun p => { p with totalProfit := p.totalProfit + sale.profit,
                                       totalSales := p.totalSales + sale.totalPrice,
                                       lastSaleDate := some now }) },
          status := 200, success := true, message := "Sale approved successfully" }

/-- SaleController.rejectSale (the basic controller wired on
PATCH /:id/reject in saleRoutes).  Checks only that a user is present;
takes no reason; restores stock and sets status and approver; inserts no
StockMovement and writes no notes. -/
def basicRejectSale (db : DB) (saleId : Nat) (user : Option User) : HttpResult :=
  match user with
  | none => { db := db, status := 401, success := false, message := "Authentication required" }
  | some u =>
    match findSale db saleId with
    | none => { db := db, status := 404, success := false, message := "Sale not found" }
    | some sale =>
      if sale.status != SaleStatus.pending then
        { db := db, status := 400, success := false,
          message := "Sale is already " ++ sale.status.str }
      else
        { db := { db with
                  products := updateProduct db.products sale.productId
                    (fun p => { p with qtyInStock := p.qtyInStock + sale.qtySold }),
                  sales := updateSale db.sales saleId
                    (fun s => { s with status := .rejected, approvedById := some u.id }) },
          status := 200, success := true,
          message := "Sale rejected successfully and stock restored" }

/-- The legacy AdminController.approveSale variant ("approve sale with
timestamp logging"): sets status, approver and approvedAt on the sale row
only; it updates no product aggregate, and its conflict message is the
fixed string "Sale is not pending approval". -/
def legacyApproveSale (db : DB) (saleId : Nat) (user : User) (now : Nat) : HttpResult :=
  match findSale db saleId with
  | none => { db := db, status := 404, success := false, message := "Sale not found" }
  | some sale =>
    if sale.status != SaleStatus.pending then
      { db := db, status := 400, success := false, message := "Sale is not pending approval" }
    else
      { db := { db with
                sales := updateSale db.sales saleId
                  (fun s => { s with status := .approved, approvedById := some user.id,
                                     approvedAt := some now }) },
        status := 200, success := true, message := "Sale approved successfully" }

/-- approve_sale_realtime (salesSocketHandlers.ts).  Same transition as the
admin approveSale, but the emissions and the acknowledgment callback sit in
the same try block as the transaction.  When an emission throws
(emitOk = false) after the commit, control reaches the outer catch, whose
first statement awaits rollbackTransaction(); the transaction is already
committed, so that call itself throws and the failure callback below it is
never reached: the commit stands, the error escapes the handler, and no
acknowledgment is delivered (ackDelivered = false, response fields
unused). -/
def socketApproveSale (db : DB) (saleId : Nat) (user : Option User) (notes : Option String)
    (now : Nat) (emitOk : Bool) : HttpResult :=
  match user with
  | none => { db := db, status := 0, success := false,
              message := "Unauthorized - Admin access required" }
  | some u =>
    if u.role != Role.admin then
      { db := db, status := 0, success := false,
        message := "Unauthorized - Admin access required" }
    else
      match findSale db saleId with
      | none => { db := db, status := 0, success := false, message := "Sale not found" }
      | some sale =>
        if sale.status != SaleStatus.pending then
          { db := db, status := 0, success := false,
            message := "Sale is " ++ sale.status.str ++ ", not pending approval" }
        else
          let db' : DB :=
            { db with sales := updateSale db.sales saleId (approveFields u.id notes now),
                      products := updateProduct db.products sale.productId
                        (approveAggregates sale now) }
          if emitOk then
            { db := db', status := 0, success := true,
              message := "Sale approved successfully",
              pendingCount := some (countPending db'),
              events :=
                [ { room := "employee_" ++ toString sale.soldById ++ "_sales",
                    name := "sale_status_updated" },
                  { room := "admin_sales_room", name := "sale_approved_broadcast" },
                  { room := "admin_sales_room", name := "pending_count_updated",
                    count := some (countPending db'), action := some "approved" } ] }
          else
            { db := db', status := 0, success := false, message := "",
              ackDelivered := false }

/-- reject_sale_realtime (salesSocketHandlers.ts).  Admin-only, requires a
non-empty reason; one transaction sets the sale row, restores stock and
appends one StockMovement of type "in".  Emissions share the outer try
with the transaction, as in socketApproveSale: a post-commit emission
failure reaches the catch, whose rollbackTransaction() throws because the
transaction is already committed, so the failure callback never runs and
no acknowledgment is delivered (ackDelivered = false). -/
def socketRejectSale (db : DB) (saleId : Nat) (user : Option User) (reason : Option String)
    (now : Nat) (emitOk : Bool) : HttpResult :=
  match user with
  | none => { db := db, status := 0, success := false,
              message := "Unauthorized - Admin access required" }
  | some u =>
    if u.role != Role.admin then
      { db := db, status := 0, success := false,
        message := "Unauthorized - Admin access required" }
    else
      match reason with
      | none => { db := db, status := 0, success := false,
                  message := "Rejection reason is required" }
      | some r =>
        if blank r then
          { db := db, status := 0, success := false,
            message := "Rejection reason is required" }
        else
          match findSale db saleId with
          | none => { db := db, status := 0, success := false, message := "Sale not found" }
          | some sale =>
            if sale.status != SaleStatus.pending then
              { db := db, status := 0, success := false,
                message := "Sale is " ++ sale.status.str ++ ", not pending approval" }
            else
              let db' : DB :=
                { products := updateProduct db.products sale.productId
                    (fun p => { p with qtyInStock := p.qtyInStock + sale.qtySold }),
                  sales := updateSale db.sales saleId (rejectFields u.id r now),
                  movements := db.movements ++ [rejectMovement u r now sale] }
              if emitOk then
                { db := db', status := 0, success := true,
                  message := "Sale rejected successfully and stock restored",
                  pendingCount := some (countPending db'),
                  events :=
                    [ { room := "employee_" ++ toString sale.soldById ++ "_sales",
                        name := "sale_status_updated" },
                      { room := "admin_sales_room", name := "sale_rejected_broadcast" },
                      { room := "admin_sales_room", name := "pending_count_updated",
                        count := some (countPending db'), action := some "rejected" } ] }
              else
                { db := db', status := 0, success := false, message := "",
                  ackDelivered := false }

/-- Per-item outcome of a bulk approval. -/
structure BulkItem where
  saleId : Nat
  success : Bool
  error : Option String := none
  deriving DecidableEq, Repr

/-- Result of a bulk approval call. -/
structure BulkResult where
  db : DB
  status : Nat
  success : Bool
  message : String
  results : List BulkItem := []
  totalProcessed : Nat := 0
  successCount : Nat := 0
  failureCount : Nat := 0
  events : List Event := []
  deriving DecidableEq, Repr

/-- One iteration of the bulk-approval loop (shared by
AdminController.bulkApproveSales and the approveSaleById helper of the
socket handlers): its own transaction looks the sale up, requires status
pending, applies the approval transition, and on success emits one
status-updated event to the owning employee room.  On failure the
transaction is rolled back and the store is unchanged. -/
def approveOne (db : DB) (saleId : Nat) (admin : User) (notes : Option String)
    (now : Nat) : DB × BulkItem × List Event :=
  match findSale db saleId with
  | none => (db, { saleId := saleId, success := false, error := some "Sale not found" }, [])
  | some sale =>
    if sale.status != SaleStatus.pending then
      (db, { saleId := saleId, success := false,
             error := some ("Sale is " ++ sale.status.str) }, [])
    else
      let db' : DB :=
        { db with sales := updateSale db.sales saleId (approveFields admin.id notes now),
                  products := updateProduct db.products sale.productId
                    (approveAggregates sale now) }
      (db', { saleId := saleId, success := true },
       [ { room := "employee_" ++ toString sale.soldById ++ "_sales",
           name := "sale_status_updated" } ])

/-- The sequential bulk loop: one independent transaction per sale id, a
failure is recorded and processing continues with the next id. -/
def bulkLoop (admin : User) (notes : Option String) (now : Nat) :
    DB → List Nat → DB × List BulkItem × List Event
  | db, [] => (db, [], [])
  | db, sid :: rest =>
    let step := approveOne db sid admin notes now
    let tail := bulkLoop admin notes now step.1 rest
    (tail.1, step.2.1 :: tail.2.1, step.2.2 ++ tail.2.2)

/-- AdminController.bulkApproveSales.  Admin-only, non-empty id list; after
the loop it pushes one bulk_approval_completed summary and one fresh
pending-count update to the admin room, and answers with the per-id results
plus the totalProcessed / successCount / failureCount aggregate. -/
def bulkApproveSales (db : DB) (saleIds : List Nat) (user : Option User)
    (notes : Option String) (now : Nat) : BulkResult :=
  match user with
  | none => { db := db, status := 403, success := false,
              message := "Only admins can bulk approve sales" }
  | some u =>
    if u.role != Role.admin then
      { db := db, status := 403, success := false,
        message := "Only admins can bulk approve sales" }
    else if saleIds.isEmpty then
      { db := db, status := 400, success := false, message := "Sale IDs array is required" }
    else
      let run := bulkLoop u notes now db saleIds
      let db' := run.1
      let items := run.2.1
      let sc := (items.filter (fun i => i.success)).length
      let fc := (items.filter (fun i => !i.success)).length
      { db := db', status := 200, success := true,
        message := "Bulk approval completed: " ++ toString sc ++ " approved, "
                     ++ toString fc ++ " failed",
        results := items, totalProcessed := saleIds.length,
        successCount := sc, failureCount := fc,
        events := run.2.2 ++
          [ { room := "admin_sales_room", name := "bulk_approval_completed",
              count := some (countPending db'),
              totalProcessed := some saleIds.length,
              successCount := some sc, failureCount := some fc },
            { room := "admin_sales_room", name := "pending_count_updated",
              count := some (countPending db'), action := some "bulk_approved" } ] }

/-- bulk_approve_sales (salesSocketHandlers.ts).  Same per-id loop through
the approveSaleById helper, but after the batch it emits only the fresh
pending-count update (tagged bulk_approved with the two counters) to the
admin room: no bulk_approval_completed summary event is emitted. -/
def socketBulkApprove (db : DB) (saleIds : List Nat) (user : Option User)
    (notes : Option String) (now : Nat) : BulkResult :=
  match user with
  | none => { db := db, status := 0, success := false,
              message := "Unauthorized - Admin access required" }
  | some u =>
    if u.role != Role.admin then
      { db := db, status := 0, success := false,
        message := "Unauthorized - Admin access required" }
    else
      let run := bulkLoop u notes now db saleIds
      let db' := run.1
      let items := run.2.1
      let sc := (items.filter (fun i => i.success)).length
      let fc := (items.filter (fun i => !i.success)).length
      { db := db', status := 0, success := true,
        message := "Bulk approval completed: " ++ toString sc ++ " approved, "
                     ++ toString fc ++ " failed",
        results := items, totalProcessed := saleIds.length,
        successCount := sc, failureCount := fc,
        events := run.2.2 ++
          [ { room := "admin_sales_room", name := "pending_count_updated",
              count := some (countPending db'), action := some "bulk_approved",
              successCount := some sc, failureCount := some fc } ] }

/-- ProductController.updateProduct (the product-update handler): price and
costPrice are overwritten when they are sent and kept otherwise; this
handler never touches qtyInStock or any sale row. -/
def updateProductPrice (db : DB) (pid : Nat) (price costPrice : Option Int) : DB :=
  match findProduct db pid with
  | none => db
  | some _ =>
    let f : Product → Product := fun p =>
      { p with price := price.getD p.price, costPrice := costPrice.getD p.costPrice }
    { db with products := updateProduct db.products pid f }

/-- One invocation of a sale-lifecycle entry point, with its inputs. -/
inductive Op where
  | create (pid : Nat) (qty : Int) (user : Option User) (cname : Option String) (now : Nat)
  | sell (pid : Nat) (qty : Int) (user : Option User) (now : Nat)
  | approve (sid : Nat) (user : Option User) (notes : Option String) (now : Nat) (emitOk : Bool)
  | reject (sid : Nat) (user : Option User) (reason : Option String) (now : Nat) (emitOk : Bool)
  | basicApprove (sid : Nat) (user : Option User) (now : Nat)
  | basicReject (sid : Nat) (user : Option User)
  | legacyApprove (sid : Nat) (user : User) (now : Nat)
  | sockApprove (sid : Nat) (user : Option User) (notes : Option String) (now : Nat) (emitOk : Bool)
  | sockReject (sid : Nat) (user : Option User) (reason : Option String) (now : Nat) (emitOk : Bool)
  | bulk (sids : List Nat) (user : Option User) (notes : Option String) (now : Nat)
  | sockBulk (sids : List Nat) (user : Option User) (notes : Option String) (now : Nat)
  | priceUpdate (pid : Nat) (price costPrice : Option Int)

/-- The committed store state after one lifecycle invocation. -/
def applyOp (db : DB) : Op → DB
  | .create pid qty u c now => (createSale db pid qty u c now).db
  | .sell pid qty u now => (sellProduct db pid qty u now).db
  | .approve sid u n now e => (approveSale db sid u n now e).db
  | .reject sid u r now e => (rejectSale db sid u r now e).db
  | .basicApprove sid u now => (basicApproveSale db sid u now).db
  | .basicReject sid u => (basicRejectSale db sid u).db
  | .legacyApprove sid u now => (legacyApproveSale db sid u now).db
  | .sockApprove sid u n now e => (socketApproveSale db sid u n now e).db
  | .sockReject sid u r now e => (socketRejectSale db sid u r now e).db
  | .bulk sids u n now => (bulkApproveSales db sids u n now).db
  | .sockBulk sids u n now => (socketBulkApprove db sids u n now).db
  | .priceUpdate pid pr cp => updateProductPrice db pid pr cp

/-- States reachable from db0 through lifecycle invocations. -/
inductive Reach (db0 : DB) : DB → Prop where
  | base : Reach db0 db0
  | step (db : DB) (op : Op) : Reach db0 db → Reach db0 (applyOp db op)

/-- Every product row has non-negative stock. -/
def StockInv (db : DB) : Prop := ∀ p ∈ db.products, 0 ≤ p.qtyInStock

/-- Every sale row records a positive quantity (route validation admits
only qtySold of at least 1 into createSale / sellProduct). -/
def QtyInv (db : DB) : Prop := ∀ s ∈ db.sales, 1 ≤ s.qtySold

/-- Store invariant preserved by every lifecycle invocation. -/
def StoreInv (db : DB) : Prop := StockInv db ∧ QtyInv db

lemma mem_updateProduct {ps : List Product} {pid : Nat} {f : Product → Product} {q : Product}
    (hq : q ∈ updateProduct ps pid f) : (∃ p ∈ ps, q = f p) ∨ q ∈ ps := by
  rcases List.mem_map.mp hq with ⟨a, ha, hfa⟩
  by_cases h : (a.id == pid) = true
  · left
    exact ⟨a, ha, by simpa [h] using hfa.symm⟩
  · right
    simp only [h] at hfa
    simp only [Bool.false_eq_true, if_false] at hfa
    exact hfa ▸ ha

lemma mem_updateSale {ss : List Sale} {sid : Nat} {f : Sale → Sale} {q : Sale}
    (hq : q ∈ updateSale ss sid f) : (∃ s ∈ ss, q = f s) ∨ q ∈ ss := by
  rcases List.mem_map.mp hq with ⟨a, ha, hfa⟩
  by_cases h : (a.id == sid) = true
  · left
    exact ⟨a, ha, by simpa [h] using hfa.symm⟩
  · right
    simp only [h] at hfa
    simp only [Bool.false_eq_true, if_false] at hfa
    exact hfa ▸ ha

lemma storeInv_createSale (db : DB) (pid : Nat) (qty : Int) (u : Option User)
    (c : Option String) (now : Nat) (h : StoreInv db) :
    StoreInv (createSale db pid qty u c now).db := by
  unfold createSale
  split
  · exact h
  rename_i hqty
  split
  · exact h
  split
  · exact h
  split
  · exact h
  rename_i hstock
  dsimp only
  unfold StoreInv StockInv QtyInv
  constructor
  · intro q hq
    rcases mem_updateProduct hq with ⟨p, _, rfl⟩ | hmem
    · dsimp only
      omega
    · exact h.1 q hmem
  · intro s hs
    rcases List.mem_append.mp hs with hmem | hnew
    · exact h.2 s hmem
    · rcases List.mem_singleton.mp hnew with rfl
      dsimp only
      omega

lemma storeInv_sellProduct (db : DB) (pid : Nat) (qty : Int) (u : Option User)
    (now : Nat) (h : StoreInv db) :
    StoreInv (sellProduct db pid qty u now).db := by
  unfold sellProduct
  split
  · exact h
  rename_i hqty
  split
  · exact h
  split
  · exact h
  split
  · exact h
  rename_i hstock
  dsimp only
  unfold StoreInv StockInv QtyInv
  constructor
  · intro q hq
    rcases mem_updateProduct hq with ⟨p, _, rfl⟩ | hmem
    · dsimp only
      omega
    · exact h.1 q hmem
  · intro s hs
    rcases List.mem_append.mp hs with hmem | hnew
    · exact h.2 s hmem
    · rcases List.mem_singleton.mp hnew with rfl
      dsimp only
      omega

lemma storeInv_mk {ps : List Product} {ss : List Sale} {ms : List StockMovement}
    (h1 : ∀ p ∈ ps, 0 ≤ p.qtyInStock) (h2 : ∀ s ∈ ss, 1 ≤ s.qtySold) :
    StoreInv ⟨ps, ss, ms⟩ := ⟨h1, h2⟩

lemma stock_updateProduct {ps : List Product} {pid : Nat} {f : Product → Product}
    (h : ∀ p ∈ ps, 0 ≤ p.qtyInStock) (hf : ∀ p ∈ ps, 0 ≤ (f p).qtyInStock) :
    ∀ q ∈ updateProduct ps pid f, 0 ≤ q.qtyInStock := by
  intro q hq
  rcases mem_updateProduct hq with ⟨p, hp, rfl⟩ | hmem
  · exact hf p hp
  · exact h q hmem

lemma qty_updateSale {ss : List Sale} {sid : Nat} {f : Sale → Sale}
    (h : ∀ s ∈ ss, 1 ≤ s.qtySold) (hf : ∀ s, (f s).qtySold = s.qtySold) :
    ∀ q ∈ updateSale ss sid f, 1 ≤ q.qtySold := by
  intro q hq
  rcases mem_updateSale hq with ⟨s, hs, rfl⟩ | hmem
  · rw [hf]
    exact h s hs
  · exact h q hmem

lemma mem_of_findSale {db : DB} {sid : Nat} {sale : Sale}
    (h : findSale db sid = some sale) : sale ∈ db.sales :=
  List.mem_of_find?_eq_some h

lemma storeInv_approveSale (db : DB) (sid : Nat) (u : Option User) (notes : Option String)
    (now : Nat) (emitOk : Bool) (h : StoreInv db) :
    StoreInv (approveSale db sid u notes now emitOk).db := by
  unfold approveSale
  split
  · exact h
  split
  · exact h
  split
  · exact h
  split
  · exact h
  dsimp only
  exact storeInv_mk
    (stock_updateProduct h.1 (fun p _ => h.1 p (by assumption)))
    (qty_updateSale h.2 (fun s => rfl))

lemma storeInv_socketApproveSale (db : DB) (sid : Nat) (u : Option User) (notes : Option String)
    (now : Nat) (emitOk : Bool) (h : StoreInv db) :
    StoreInv (socketApproveSale db sid u notes now emitOk).db := by
  unfold socketApproveSale
  split
  · exact h
  split
  · exact h
  split
  · exact h
  split
  · exact h
  split
  all_goals
    dsimp only
    exact storeInv_mk
      (stock_updateProduct h.1 (fun p _ => h.1 p (by assumption)))
      (qty_updateSale h.2 (fun s => rfl))

lemma storeInv_basicApproveSale (db : DB) (sid : Nat) (u : Option User) (now : Nat)
    (h : StoreInv db) :
    StoreInv (basicApproveSale db sid u now).db := by
  unfold basicApproveSale
  split
  · exact h
  split
  · exact h
  split
  · exact h
  dsimp only
  exact storeInv_mk
    (stock_updateProduct h.1 (fun p _ => h.1 p (by assumption)))
    (qty_updateSale h.2 (fun s => rfl))

lemma storeInv_legacyApproveSale (db : DB) (sid : Nat) (u : User) (now : Nat)
    (h : StoreInv db) :
    StoreInv (legacyApproveSale db sid u now).db := by
  unfold legacyApproveSale
  split
  · exact h
  split
  · exact h
  dsimp only
  exact ⟨h.1, qty_updateSale h.2 (fun s => rfl)⟩

lemma storeInv_rejectSale (db : DB) (sid : Nat) (u : Option User) (reason : Option String)
    (now : Nat) (emitOk : Bool) (h : StoreInv db) :
    StoreInv (rejectSale db sid u reason now emitOk).db := by
  unfold rejectSale
  split
  · exact h
  split
  · exact h
  split
  · exact h
  split
  · exact h
  split
  · exact h
  rename_i sale hfind
  split
  · exact h
  dsimp only
  have hqty : 1 ≤ sale.qtySold := h.2 sale (mem_of_findSale hfind)
  exact storeInv_mk
    (stock_updateProduct h.1 (fun p hp => by
      have := h.1 p hp
      dsimp only
      omega))
    (qty_updateSale h.2 (fun s => rfl))

lemma storeInv_socketRejectSale (db : DB) (sid : Nat) (u : Option User) (reason : Option String)
    (now : Nat) (emitOk : Bool) (h : StoreInv db) :
    StoreInv (socketRejectSale db sid u reason now emitOk).db := by
  unfold socketRejectSale
  split
  · exact h
  split
  · exact h
  split
  · exact h
  split
  · exact h
  split
  · exact h
  rename_i sale hfind
  split
  · exact h
  have hqty : 1 ≤ sale.qtySold := h.2 sale (mem_of_findSale hfind)
  split
  all_goals
    dsimp only
    exact storeInv_mk
      (stock_updateProduct h.1 (fun p hp => by
        have := h.1 p hp
        dsimp only
        omega))
      (qty_updateSale h.2 (fun s => rfl))

lemma storeInv_basicRejectSale (db : DB) (sid : Nat) (u : Option User)
    (h : StoreInv db) :
    StoreInv (basicRejectSale db sid u).db := by
  unfold basicRejectSale
  split
  · exact h
  split
  · exact h
  rename_i sale hfind
  split
  · exact h
  dsimp only
  have hqty : 1 ≤ sale.qtySold := h.2 sale (mem_of_findSale hfind)
  exact storeInv_mk
    (stock_updateProduct h.1 (fun p hp => by
      have := h.1 p hp
      dsimp only
      omega))
    (qty_updateSale h.2 (fun s => rfl))

lemma storeInv_approveOne (db : DB) (sid : Nat) (admin : User) (notes : Option String)
    (now : Nat) (h : StoreInv db) :
    StoreInv (approveOne db sid admin notes now).1 := by
  unfold approveOne
  split
  · exact h
  split
  · exact h
  dsimp only
  exact storeInv_mk
    (stock_updateProduct h.1 (fun p hp => h.1 p hp))
    (qty_updateSale h.2 (fun s => rfl))

lemma storeInv_bulkLoop (admin : User) (notes : Option String) (now : Nat)
    (sids : List Nat) (db : DB) (h : StoreInv db) :
    StoreInv (bulkLoop admin notes now db sids).1 := by
  induction sids generalizing db with
  | nil => exact h
  | cons sid rest ih =>
    exact ih _ (storeInv_approveOne db sid admin notes now h)

lemma storeInv_bulkApproveSales (db : DB) (sids : List Nat) (u : Option User)
    (notes : Option String) (now : Nat) (h : StoreInv db) :
    StoreInv (bulkApproveSales db sids u notes now).db := by
  unfold bulkApproveSales
  split
  · exact h
  split
  · exact h
  split
  · exact h
  dsimp only
  exact storeInv_bulkLoop _ _ _ _ _ h

lemma storeInv_socketBulkApprove (db : DB) (sids : List Nat) (u : Option User)
    (notes : Option String) (now : Nat) (h : StoreInv db) :
    StoreInv (socketBulkApprove db sids u notes now).db := by
  unfold socketBulkApprove
  split
  · exact h
  split
  · exact h
  dsimp only
  exact storeInv_bulkLoop _ _ _ _ _ h

/-- Every lifecycle invocation preserves the store invariant. -/
lemma storeInv_applyOp (db : DB) (op : Op) (h : StoreInv db) : StoreInv (applyOp db op) := by
  cases op with
  | create pid qty u c now => exact storeInv_createSale db pid qty u c now h
  | sell pid qty u now => exact storeInv_sellProduct db pid qty u now h
  | approve sid u n now e => exact storeInv_approveSale db sid u n now e h
  | reject sid u r now e => exact storeInv_rejectSale db sid u r now e h
  | basicApprove sid u now => exact storeInv_basicApproveSale db sid u now h
  | basicReject sid u => exact storeInv_basicRejectSale db sid u h
  | legacyApprove sid u now => exact storeInv_legacyApproveSale db sid u now h
  | sockApprove sid u n now e => exact storeInv_socketApproveSale db sid u n now e h
  | sockReject sid u r now e => exact storeInv_socketRejectSale db sid u r now e h
  | bulk sids u n now => exact storeInv_bulkApproveSales db sids u n now h
  | sockBulk sids u n now => exact storeInv_socketBulkApprove db sids u n now h
  | priceUpdate pid pr cp =>
    show StoreInv (updateProductPrice db pid pr cp)
    unfold updateProductPrice
    split
    · exact h
    exact ⟨stock_updateProduct h.1 (fun p hp => h.1 p hp), h.2⟩

/-- The store invariant holds in every reachable state. -/
lemma storeInv_reach {db0 db : DB} (h0 : StoreInv db0) (h : Reach db0 db) : StoreInv db := by
  induction h with
  | base => exact h0
  | step db op _ ih => exact storeInv_applyOp db op ih

lemma find?_updateSale (ss : List Sale) (sid : Nat) (f : Sale → Sale)
    (hid : ∀ s, (f s).id = s.id) :
    (updateSale ss sid f).find? (fun s => s.id == sid) =
      (ss.find? (fun s => s.id == sid)).map f := by
  induction ss with
  | nil => rfl
  | cons a rest ih =>
    by_cases ha : (a.id == sid) = true
    · have haeq : a.id = sid := by simpa using ha
      simp [updateSale, List.find?_cons, hid, haeq]
    · simp only [updateSale, List.map_cons, List.find?_cons, ha]
      simp only [Bool.false_eq_true, if_false, ha]
      simpa only [updateSale] using ih

lemma find?_updateProduct (ps : List Product) (pid : Nat) (f : Product → Product)
    (hid : ∀ p, (f p).id = p.id) :
    (updateProduct ps pid f).find? (fun p => p.id == pid) =
      (ps.find? (fun p => p.id == pid)).map f := by
  induction ps with
  | nil => rfl
  | cons a rest ih =>
    by_cases ha : (a.id == pid) = true
    · have haeq : a.id = pid := by simpa using ha
      simp [updateProduct, List.find?_cons, hid, haeq]
    · simp only [updateProduct, List.map_cons, List.find?_cons, ha]
      simp only [Bool.false_eq_true, if_false, ha]
      simpa only [updateProduct] using ih

/-- The six economic fields of a sale, fixed at creation. -/
def Sale.econ (s : Sale) : Int × Int × Int × Int × Int × Int :=
  (s.qtySold, s.unitPrice, s.unitCost, s.totalPrice, s.totalCost, s.profit)

/-- The second sale list extends the first and agrees with it, row by row,
on every economic field. -/
def econPreservedL (l l' : List Sale) : Prop :=
  l.length ≤ l'.length ∧
  ∀ i : Nat, ∀ hi : i < l.length, ∀ hi' : i < l'.length, (l'[i]).econ = (l[i]).econ

/-- Economic fields of the already-stored sales survive a store transition. -/
def econPreserved (db db' : DB) : Prop := econPreservedL db.sales db'.sales

lemma econPreservedL_refl (l : List Sale) : econPreservedL l l :=
  ⟨le_refl _, fun _ _ _ => rfl⟩

lemma econPreserved_refl (db : DB) : econPreserved db db := econPreservedL_refl db.sales

lemma econPreservedL_update (l : List Sale) (sid : Nat) (f : Sale → Sale)
    (hf : ∀ s, (f s).econ = s.econ) : econPreservedL l (updateSale l sid f) := by
  refine ⟨le_of_eq (List.length_map _ _).symm, ?_⟩
  intro i hi hi'
  simp only [updateSale, List.getElem_map]
  split
  · exact hf _
  · rfl

lemma econPreservedL_append (l l2 : List Sale) : econPreservedL l (l ++ l2) := by
  refine ⟨by simp, ?_⟩
  intro i hi hi'
  exact congrArg Sale.econ (List.getElem_append_left hi)

lemma econPreservedL_trans {a b c : List Sale} (h1 : econPreservedL a b)
    (h2 : econPreservedL b c) : econPreservedL a c := by
  refine ⟨le_trans h1.1 h2.1, ?_⟩
  intro i hi hi'
  have hib : i < b.length := lt_of_lt_of_le hi h1.1
  exact (h2.2 i hib hi').trans (h1.2 i hi hib)

lemma econ_createSale (db : DB) (pid : Nat) (qty : Int) (u : Option User)
    (c : Option String) (now : Nat) : econPreserved db (createSale db pid qty u c now).db := by
  unfold createSale
  split
  · exact econPreserved_refl db
  split
  · exact econPreserved_refl db
  split
  · exact econPreserved_refl db
  split
  · exact econPreserved_refl db
  exact econPreservedL_append _ _

lemma econ_sellProduct (db : DB) (pid : Nat) (qty : Int) (u : Option User)
    (now : Nat) : econPreserved db (sellProduct db pid qty u now).db := by
  unfold sellProduct
  split
  · exact econPreserved_refl db
  split
  · exact econPreserved_refl db
  split
  · exact econPreserved_refl db
  split
  · exact econPreserved_refl db
  exact econPreservedL_append _ _

lemma econ_approveSale (db : DB) (sid : Nat) (u : Option User) (notes : Option String)
    (now : Nat) (emitOk : Bool) : econPreserved db (approveSale db sid u notes now emitOk).db := by
  unfold approveSale
  split
  · exact econPreserved_refl db
  split
  · exact econPreserved_refl db
  split
  · exact econPreserved_refl db
  split
  · exact econPreserved_refl db
  exact econPreservedL_update _ _ _ (fun s => rfl)

lemma econ_socketApproveSale (db : DB) (sid : Nat) (u : Option User) (notes : Option String)
    (now : Nat) (emitOk : Bool) :
    econPreserved db (socketApproveSale db sid u notes now emitOk).db := by
  unfold socketApproveSale
  split
  · exact econPreserved_refl db
  split
  · exact econPreserved_refl db
  split
  · exact econPreserved_refl db
  split
  · exact econPreserved_refl db
  split
  all_goals exact econPreservedL_update _ _ _ (fun s => rfl)

lemma econ_basicApproveSale (db : DB) (sid : Nat) (u : Option User) (now : Nat) :
    econPreserved db (basicApproveSale db sid u now).db := by
  unfold basicApproveSale
  split
  · exact econPreserved_refl db
  split
  · exact econPreserved_refl db
  split
  · exact econPreserved_refl db
  exact econPreservedL_update _ _ _ (fun s => rfl)

lemma econ_legacyApproveSale (db : DB) (sid : Nat) (u : User) (now : Nat) :
    econPreserved db (legacyApproveSale db sid u now).db := by
  unfold legacyApproveSale
  split
  · exact econPreserved_refl db
  split
  · exact econPreserved_refl db
  exact econPreservedL_update _ _ _ (fun s => rfl)

lemma econ_rejectSale (db : DB) (sid : Nat) (u : Option User) (reason : Option String)
    (now : Nat) (emitOk : Bool) : econPreserved db (rejectSale db sid u reason now emitOk).db := by
  unfold rejectSale
  split
  · exact econPreserved_refl db
  split
  · exact econPreserved_refl db
  split
  · exact econPreserved_refl db
  split
  · exact econPreserved_refl db
  split
  · exact econPreserved_refl db
  split
  · exact econPreserved_refl db
  exact econPreservedL_update _ _ _ (fun s => rfl)

lemma econ_socketRejectSale (db : DB) (sid : Nat) (u : Option User) (reason : Option String)
    (now : Nat) (emitOk : Bool) :
    econPreserved db (socketRejectSale db sid u reason now emitOk).db := by
  unfold socketRejectSale
  split
  · exact econPreserved_refl db
  split
  · exact econPreserved_refl db
  split
  · exact econPreserved_refl db
  split
  · exact econPreserved_refl db
  split
  · exact econPreserved_refl db
  split
  · exact econPreserved_refl db
  split
  all_goals exact econPreservedL_update _ _ _ (fun s => rfl)

lemma econ_basicRejectSale (db : DB) (sid : Nat) (u : Option User) :
    econPreserved db (basicRejectSale db sid u).db := by
  unfold basicRejectSale
  split
  · exact econPreserved_refl db
  split
  · exact econPreserved_refl db
  split
  · exact econPreserved_refl db
  exact econPreservedL_update _ _ _ (fun s => rfl)

lemma econ_approveOne (db : DB) (sid : Nat) (admin : User) (notes : Option String)
    (now : Nat) : econPreserved db (approveOne db sid admin notes now).1 := by
  unfold approveOne
  split
  · exact econPreserved_refl db
  split
  · exact econPreserved_refl db
  exact econPreservedL_update _ _ _ (fun s => rfl)

lemma econ_bulkLoop (admin : User) (notes : Option String) (now : Nat)
    (sids : List Nat) (db : DB) : econPreserved db (bulkLoop admin notes now db sids).1 := by
  induction sids generalizing db with
  | nil => exact econPreserved_refl db
  | cons sid rest ih =>
    exact econPreservedL_trans (econ_approveOne db sid admin notes now) (ih _)

lemma econ_bulkApproveSales (db : DB) (sids : List Nat) (u : Option User)
    (notes : Option String) (now : Nat) :
    econPreserved db (bulkApproveSales db sids u notes now).db := by
  unfold bulkApproveSales
  split
  · exact econPreserved_refl db
  split
  · exact econPreserved_refl db
  split
  · exact econPreserved_refl db
  exact econ_bulkLoop _ _ _ _ _

lemma econ_socketBulkApprove (db : DB) (sids : List Nat) (u : Option User)
    (notes : Option String) (now : Nat) :
    econPreserved db (socketBulkApprove db sids u notes now).db := by
  unfold socketBulkApprove
  split
  · exact econPreserved_refl db
  split
  · exact econPreserved_refl db
  exact econ_bulkLoop _ _ _ _ _

/-- No lifecycle invocation rewrites the economic fields of a stored sale. -/
lemma econ_applyOp (db : DB) (op : Op) : econPreserved db (applyOp db op) := by
  cases op with
  | create pid qty u c now => exact econ_createSale db pid qty u c now
  | sell pid qty u now => exact econ_sellProduct db pid qty u now
  | approve sid u n now e => exact econ_approveSale db sid u n now e
  | reject sid u r now e => exact econ_rejectSale db sid u r now e
  | basicApprove sid u now => exact econ_basicApproveSale db sid u now
  | basicReject sid u => exact econ_basicRejectSale db sid u
  | legacyApprove sid u now => exact econ_legacyApproveSale db sid u now
  | sockApprove sid u n now e => exact econ_socketApproveSale db sid u n now e
  | sockReject sid u r now e => exact econ_socketRejectSale db sid u r now e
  | bulk sids u n now => exact econ_bulkApproveSales db sids u n now
  | sockBulk sids u n now => exact econ_socketBulkApprove db sids u n now
  | priceUpdate pid pr cp =>
    show econPreserved db (updateProductPrice db pid pr cp)
    unfold updateProductPrice
    split
    · exact econPreserved_refl db
    exact econPreservedL_refl db.sales

/-- Concrete admin user for witnesses. -/
def exAdmin : User := { id := 1, role := .admin, firstName := "Alice", lastName := "Admin" }

/-- Concrete employee user for witnesses. -/
def exEmp : User := { id := 2, role := .employee, firstName := "Bob", lastName := "Employee" }

/-- Product of the scenario in the spec: stock 5, price 100, cost 60. -/
def exProduct : Product :=
  { id := 1, price := 100, costPrice := 60, qtyInStock := 5,
    totalSales := 0, totalProfit := 0, lastSaleDate := none }

/-- Store with one product and no sales. -/
def exDb : DB := { products := [exProduct], sales := [], movements := [] }

/-- The sale the scenario creates: qty 2 at price 100 and cost 60. -/
def exSale : Sale :=
  { id := 1, saleNumber := "SALE-000001", productId := 1, qtySold := 2,
    unitPrice := 100, unitCost := 60, totalPrice := 200, totalCost := 120, profit := 80,
    status := .pending, soldById := 2, approvedById := none, approvedAt := none,
    notes := none, salesDate := 0 }

/-- The product after the creation-time decrement. -/
def exProduct3 : Product := { exProduct with qtyInStock := 3 }

/-- Store holding the pending sale and the decremented product. -/
def pendDb : DB := { products := [exProduct3], sales := [exSale], movements := [] }

/-- The same sale already approved. -/
def apprSale : Sale := { exSale with status := .approved }

/-- Store holding the resolved (approved) sale. -/
def apprDb : DB := { products := [exProduct3], sales := [apprSale], movements := [] }

/-- C1: a createSale invocation on an existing product with qtySold above
the available stock answers 400 InsufficientStock carrying available and
requested, and returns the store unchanged; and in every state reachable
from a store with non-negative stock through lifecycle invocations, every
product keeps non-negative stock. -/
theorem C1_insufficient_stock_blocks_and_stock_nonneg :
    (∀ (db : DB) (pid : Nat) (qty : Int) (u : User) (c : Option String) (now : Nat)
       (product : Product), findProduct db pid = some product →
       0 ≤ product.qtyInStock → product.qtyInStock < qty →
       createSale db pid qty (some u) c now =
         { db := db, status := 400, success := false, message := "Insufficient stock",
           available := some product.qtyInStock, requested := some qty }) ∧
    (∀ (db0 db : DB), StoreInv db0 → Reach db0 db → ∀ p ∈ db.products, 0 ≤ p.qtyInStock) := by
  constructor
  · intro db pid qty u c now product hp h0 hlt
    have h1 : ¬ qty < 1 := by omega
    simp only [createSale, if_neg h1, hp, if_pos hlt]
  · intro db0 db h0 hre
    exact (storeInv_reach h0 hre).1

/-- Witness for C1 at the concrete store: requesting 9 of a product with
stock 5 fails with the 400 InsufficientStock result and the unchanged
store, and the initial store satisfies the non-negative stock bound. -/
theorem C1_witness :
    (createSale exDb 1 9 (some exEmp) none 0 =
      { db := exDb, status := 400, success := false, message := "Insufficient stock",
        available := some 5, requested := some 9 }) ∧
    (∀ p ∈ exDb.products, 0 ≤ p.qtyInStock) := by
  constructor
  · exact C1_insufficient_stock_blocks_and_stock_nonneg.1 exDb 1 9 exEmp none 0 exProduct
      (by decide) (by decide) (by decide)
  · exact C1_insufficient_stock_blocks_and_stock_nonneg.2 exDb exDb
      ⟨by unfold StockInv; decide, by unfold QtyInv; decide⟩ Reach.base

/-- C5: a successful createSale stores exactly one new sale whose unit
price and unit cost are snapshots of the product row and whose totalPrice,
totalCost and profit satisfy the stated equations; and no lifecycle
invocation, the product price update included, rewrites any economic field
of an already-stored sale. -/
theorem C5_econ_fields_fixed_at_creation :
    (∀ (db : DB) (pid : Nat) (qty : Int) (u : User) (c : Option String) (now : Nat)
       (product : Product), findProduct db pid = some product →
       ¬ qty < 1 → ¬ product.qtyInStock < qty →
       ∃ sale : Sale,
         (createSale db pid qty (some u) c now).db.sales = db.sales ++ [sale] ∧
         sale.qtySold = qty ∧
         sale.unitPrice = product.price ∧
         sale.unitCost = product.costPrice ∧
         sale.totalPrice = sale.unitPrice * sale.qtySold ∧
         sale.totalCost = sale.unitCost * sale.qtySold ∧
         sale.profit = sale.totalPrice - sale.totalCost) ∧
    (∀ (db : DB) (op : Op), econPreserved db (applyOp db op)) := by
  constructor
  · intro db pid qty u c now product hp h1 hstock
    refine ⟨{ id := db.sales.length + 1, saleNumber := saleNumberFor db, productId := pid,
              qtySold := qty, unitPrice := product.price, unitCost := product.costPrice,
              totalPrice := product.price * qty, totalCost := product.costPrice * qty,
              profit := product.price * qty - product.costPrice * qty,
              status := SaleStatus.pending, soldById := u.id, approvedById := none,
              approvedAt := none, notes := none, salesDate := now },
            ?_, rfl, rfl, rfl, rfl, rfl, rfl⟩
    simp only [createSale, if_neg h1, hp, if_neg hstock]
  · intro db op
    exact econ_applyOp db op

/-- Witness for C5: the scenario sale (stock 5, price 100, cost 60, qty 2)
yields totalPrice 200, totalCost 120, profit 80, and an approval of the
stored pending sale keeps its economic fields. -/
theorem C5_witness :
    (∃ sale : Sale,
       (createSale exDb 1 2 (some exEmp) none 0).db.sales = exDb.sales ++ [sale] ∧
       sale.qtySold = 2 ∧
       sale.unitPrice = 100 ∧
       sale.unitCost = 60 ∧
       sale.totalPrice = sale.unitPrice * sale.qtySold ∧
       sale.totalCost = sale.unitCost * sale.qtySold ∧
       sale.profit = sale.totalPrice - sale.totalCost) ∧
    econPreserved pendDb (applyOp pendDb (Op.approve 1 (some exAdmin) none 5 true)) := by
  constructor
  · exact C5_econ_fields_fixed_at_creation.1 exDb 1 2 exEmp none 0 exProduct
      (by decide) (by decide) (by decide)
  · exact C5_econ_fields_fixed_at_creation.2 pendDb (Op.approve 1 (some exAdmin) none 5 true)

/-- The store state after the approval transition of the live admin
controller and of the realtime / bulk approve paths. -/
def approvedDB (db : DB) (sid adminId : Nat) (notes : Option String) (now : Nat)
    (sale : Sale) : DB :=
  { db with sales := updateSale db.sales sid (approveFields adminId notes now),
            products := updateProduct db.products sale.productId
              (approveAggregates sale now) }

lemma approveSale_pending (db : DB) (sid : Nat) (u : User) (notes : Option String)
    (now : Nat) (emitOk : Bool) (sale : Sale)
    (hrole : u.role = Role.admin) (hfind : findSale db sid = some sale)
    (hpend : sale.status = SaleStatus.pending) :
    approveSale db sid (some u) notes now emitOk =
      { db := approvedDB db sid u.id notes now sale,
        status := 200, success := true, message := "Sale approved successfully",
        events :=
          if emitOk then
            [ { room := "employee_" ++ toString sale.soldById ++ "_sales",
                name := "sale_status_updated" },
              { room := "admin_sales_room", name := "sale_approved_broadcast" },
              { room := "admin_sales_room", name := "pending_count_updated",
                count := some (countPending (approvedDB db sid u.id notes now sale)),
                action := some "approved" } ]
          else [] } := by
  simp [approveSale, hfind, hrole, hpend, approvedDB]

lemma findSale_approvedDB (db : DB) (sid : Nat) (adminId : Nat) (notes : Option String)
    (now : Nat) (sale : Sale) (hfind : findSale db sid = some sale) :
    findSale (approvedDB db sid adminId notes now sale) sid =
      some (approveFields adminId notes now sale) := by
  unfold findSale approvedDB
  dsimp only
  rw [find?_updateSale db.sales sid (approveFields adminId notes now) (fun s => rfl)]
  unfold findSale at hfind
  rw [hfind]
  rfl

lemma findProduct_approvedDB (db : DB) (sid : Nat) (adminId : Nat) (notes : Option String)
    (now : Nat) (sale : Sale) :
    findProduct (approvedDB db sid adminId notes now sale) sale.productId =
      (findProduct db sale.productId).map (approveAggregates sale now) := by
  unfold findProduct approvedDB
  dsimp only
  rw [find?_updateProduct db.products sale.productId (approveAggregates sale now)
    (fun p => rfl)]

/-- C4 amended: in the live AdminController.approveSale (the transition the
realtime and bulk approve paths share), approving a pending sale answers
success, stores the sale as approved with approver and approval timestamp,
applies the aggregate update to the product row (totalSales plus
totalPrice, totalProfit plus profit, lastSaleDate set) and leaves
qtyInStock unchanged; the legacy approve variant does not update the
aggregates (see the counterexample). -/
theorem C4_amended_live_approve_effects (db : DB) (sid : Nat) (u : User)
    (notes : Option String) (now : Nat) (emitOk : Bool) (sale : Sale)
    (hrole : u.role = Role.admin) (hfind : findSale db sid = some sale)
    (hpend : sale.status = SaleStatus.pending) :
    (approveSale db sid (some u) notes now emitOk).success = true ∧
    findSale (approveSale db sid (some u) notes now emitOk).db sid =
      some (approveFields u.id notes now sale) ∧
    (approveFields u.id notes now sale).status = SaleStatus.approved ∧
    (approveFields u.id notes now sale).approvedById = some u.id ∧
    (approveFields u.id notes now sale).approvedAt = some now ∧
    findProduct (approveSale db sid (some u) notes now emitOk).db sale.productId =
      (findProduct db sale.productId).map (approveAggregates sale now) ∧
    (∀ p : Product,
       (approveAggregates sale now p).totalSales = p.totalSales + sale.totalPrice ∧
       (approveAggregates sale now p).totalProfit = p.totalProfit + sale.profit ∧
       (approveAggregates sale now p).lastSaleDate = some now ∧
       (approveAggregates sale now p).qtyInStock = p.qtyInStock) := by
  have h := approveSale_pending db sid u notes now emitOk sale hrole hfind hpend
  refine ⟨by rw [h], ?_, rfl, rfl, rfl, ?_, fun p => ⟨rfl, rfl, rfl, rfl⟩⟩
  · rw [h]
    exact findSale_approvedDB db sid u.id notes now sale hfind
  · rw [h]
    exact findProduct_approvedDB db sid u.id notes now sale

/-- Witness for C4 at the concrete pending store: the admin approves sale 1
at time 5 and the stated conclusions evaluate as claimed. -/
theorem C4_amended_witness :
    (approveSale pendDb 1 (some exAdmin) none 5 true).success = true ∧
    findSale (approveSale pendDb 1 (some exAdmin) none 5 true).db 1 =
      some (approveFields exAdmin.id none 5 exSale) ∧
    (approveFields exAdmin.id none 5 exSale).status = SaleStatus.approved ∧
    (approveFields exAdmin.id none 5 exSale).approvedById = some exAdmin.id ∧
    (approveFields exAdmin.id none 5 exSale).approvedAt = some 5 ∧
    findProduct (approveSale pendDb 1 (some exAdmin) none 5 true).db exSale.productId =
      (findProduct pendDb exSale.productId).map (approveAggregates exSale 5) ∧
    (∀ p : Product,
       (approveAggregates exSale 5 p).totalSales = p.totalSales + exSale.totalPrice ∧
       (approveAggregates exSale 5 p).totalProfit = p.totalProfit + exSale.profit ∧
       (approveAggregates exSale 5 p).lastSaleDate = some 5 ∧
       (approveAggregates exSale 5 p).qtyInStock = p.qtyInStock) :=
  C4_amended_live_approve_effects pendDb 1 exAdmin none 5 true exSale
    (by decide) (by decide) (by decide)

/-- C4 counterexample: the legacy approve variant (cited by the claim)
reports success and marks the sale approved, but leaves the product
aggregates untouched: the profit of the sale is 80 while totalProfit and
totalSales of the product stay 0, so approval does not always increment the
aggregates. -/
theorem C4_counterexample :
    (legacyApproveSale pendDb 1 exAdmin 5).success = true ∧
    (findSale (legacyApproveSale pendDb 1 exAdmin 5).db 1).map (fun s => s.status) =
      some SaleStatus.approved ∧
    exSale.profit = 80 ∧ exSale.totalPrice = 200 ∧
    (findProduct (legacyApproveSale pendDb 1 exAdmin 5).db 1).map (fun p => p.totalProfit) =
      some 0 ∧
    (findProduct (legacyApproveSale pendDb 1 exAdmin 5).db 1).map (fun p => p.totalSales) =
      some 0 := by
  decide

/-- The store state after the rejection transition of the live admin
controller and the realtime reject handler. -/
def rejectedDB (db : DB) (sid : Nat) (u : User) (r : String) (now : Nat) (sale : Sale) : DB :=
  { products := updateProduct db.products sale.productId
      (fun p => { p with qtyInStock := p.qtyInStock + sale.qtySold }),
    sales := updateSale db.sales sid (rejectFields u.id r now),
    movements := db.movements ++ [rejectMovement u r now sale] }

lemma socketRejectSale_db_pending (db : DB) (sid : Nat) (u : User) (r : String)
    (now : Nat) (emitOk : Bool) (sale : Sale)
    (hrole : u.role = Role.admin) (htrim : ¬ blank r = true)
    (hfind : findSale db sid = some sale) (hpend : sale.status = SaleStatus.pending) :
    (socketRejectSale db sid (some u) (some r) now emitOk).db =
      rejectedDB db sid u r now sale := by
  cases emitOk
  all_goals
    simp [socketRejectSale, hrole, htrim, hfind, hpend, rejectedDB, rejectMovement]

lemma findSale_rejectedDB (db : DB) (sid : Nat) (u : User) (r : String) (now : Nat)
    (sale : Sale) (hfind : findSale db sid = some sale) :
    findSale (rejectedDB db sid u r now sale) sid = some (rejectFields u.id r now sale) := by
  unfold findSale rejectedDB
  dsimp only
  rw [find?_updateSale db.sales sid (rejectFields u.id r now) (fun s => rfl)]
  unfold findSale at hfind
  rw [hfind]
  rfl

lemma findProduct_rejectedDB (db : DB) (sid : Nat) (u : User) (r : String) (now : Nat)
    (sale : Sale) :
    findProduct (rejectedDB db sid u r now sale) sale.productId =
      (findProduct db sale.productId).map
        (fun p => { p with qtyInStock := p.qtyInStock + sale.qtySold }) := by
  unfold findProduct rejectedDB
  dsimp only
  rw [find?_updateProduct db.products sale.productId
    (fun p => { p with qtyInStock := p.qtyInStock + sale.qtySold }) (fun p => rfl)]

/-- C3 amended: in the realtime reject handler (whose transition the live
AdminController.rejectSale shares), rejecting a pending sale with a
non-empty reason atomically stores the sale as rejected with approver,
timestamp and the reason in notes, adds qtySold back to the product stock,
and appends exactly one StockMovement of type "in" whose reason names the
rejected sale and whose notes and recordedBy name the acting admin; a
missing or blank reason fails with the reason-required error and no
mutation.  The basic SaleController.rejectSale wired on the sale routes
does not behave this way (see the counterexample). -/
theorem C3_amended_realtime_reject :
    (∀ (db : DB) (sid : Nat) (u : User) (r : String) (now : Nat) (emitOk : Bool) (sale : Sale),
       u.role = Role.admin → ¬ blank r = true → findSale db sid = some sale →
       sale.status = SaleStatus.pending →
       (socketRejectSale db sid (some u) (some r) now emitOk).db =
         rejectedDB db sid u r now sale ∧
       findSale (rejectedDB db sid u r now sale) sid = some (rejectFields u.id r now sale) ∧
       (rejectFields u.id r now sale).status = SaleStatus.rejected ∧
       (rejectFields u.id r now sale).approvedById = some u.id ∧
       (rejectFields u.id r now sale).approvedAt = some now ∧
       (rejectFields u.id r now sale).notes = some r ∧
       findProduct (rejectedDB db sid u r now sale) sale.productId =
         (findProduct db sale.productId).map
           (fun p => { p with qtyInStock := p.qtyInStock + sale.qtySold }) ∧
       (rejectedDB db sid u r now sale).movements =
         db.movements ++ [rejectMovement u r now sale] ∧
       (rejectMovement u r now sale).type = "in" ∧
       (rejectMovement u r now sale).quantity = sale.qtySold ∧
       (rejectMovement u r now sale).recordedById = u.id ∧
       (rejectMovement u r now sale).reason =
         "Sale " ++ sale.saleNumber ++ " rejection - Stock restored" ∧
       (rejectMovement u r now sale).notes =
         some ("Rejected by " ++ u.firstName ++ " " ++ u.lastName ++ ": " ++ r)) ∧
    (∀ (db : DB) (sid : Nat) (u : User) (now : Nat) (emitOk : Bool),
       u.role = Role.admin →
       socketRejectSale db sid (some u) none now emitOk =
         { db := db, status := 0, success := false,
           message := "Rejection reason is required" }) ∧
    (∀ (db : DB) (sid : Nat) (u : User) (r : String) (now : Nat) (emitOk : Bool),
       u.role = Role.admin → blank r = true →
       socketRejectSale db sid (some u) (some r) now emitOk =
         { db := db, status := 0, success := false,
           message := "Rejection reason is required" }) := by
  refine ⟨?_, ?_, ?_⟩
  · intro db sid u r now emitOk sale hrole htrim hfind hpend
    exact ⟨socketRejectSale_db_pending db sid u r now emitOk sale hrole htrim hfind hpend,
      findSale_rejectedDB db sid u r now sale hfind, rfl, rfl, rfl, rfl,
      findProduct_rejectedDB db sid u r now sale, rfl, rfl, rfl, rfl, rfl, rfl⟩
  · intro db sid u now emitOk hrole
    simp [socketRejectSale, hrole]
  · intro db sid u r now emitOk hrole htrim
    simp [socketRejectSale, hrole, htrim]

/-- Witness for C3: rejecting the scenario sale with reason "damaged"
restores the product stock to 5, marks the sale rejected with
notes "damaged", and appends the one type-in movement of quantity 2; a
blank reason leaves the store untouched. -/
theorem C3_amended_witness :
    ((socketRejectSale pendDb 1 (some exAdmin) (some "damaged") 5 true).db =
       rejectedDB pendDb 1 exAdmin "damaged" 5 exSale ∧
     findSale (rejectedDB pendDb 1 exAdmin "damaged" 5 exSale) 1 =
       some (rejectFields exAdmin.id "damaged" 5 exSale) ∧
     (rejectFields exAdmin.id "damaged" 5 exSale).status = SaleStatus.rejected ∧
     (rejectFields exAdmin.id "damaged" 5 exSale).approvedById = some exAdmin.id ∧
     (rejectFields exAdmin.id "damaged" 5 exSale).approvedAt = some 5 ∧
     (rejectFields exAdmin.id "damaged" 5 exSale).notes = some "damaged" ∧
     findProduct (rejectedDB pendDb 1 exAdmin "damaged" 5 exSale) exSale.productId =
       (findProduct pendDb exSale.productId).map
         (fun p => { p with qtyInStock := p.qtyInStock + exSale.qtySold }) ∧
     (rejectedDB pendDb 1 exAdmin "damaged" 5 exSale).movements =
       pendDb.movements ++ [rejectMovement exAdmin "damaged" 5 exSale] ∧
     (rejectMovement exAdmin "damaged" 5 exSale).type = "in" ∧
     (rejectMovement exAdmin "damaged" 5 exSale).quantity = exSale.qtySold ∧
     (rejectMovement exAdmin "damaged" 5 exSale).recordedById = exAdmin.id ∧
     (rejectMovement exAdmin "damaged" 5 exSale).reason =
       "Sale " ++ exSale.saleNumber ++ " rejection - Stock restored" ∧
     (rejectMovement exAdmin "damaged" 5 exSale).notes =
       some ("Rejected by " ++ exAdmin.firstName ++ " " ++ exAdmin.lastName ++ ": " ++
         "damaged")) ∧
    socketRejectSale pendDb 1 (some exAdmin) (some " ") 5 true =
      { db := pendDb, status := 0, success := false,
        message := "Rejection reason is required" } := by
  constructor
  · exact C3_amended_realtime_reject.1 pendDb 1 exAdmin "damaged" 5 true exSale
      (by decide) (by decide) (by decide) (by decide)
  · exact C3_amended_realtime_reject.2.2 pendDb 1 exAdmin " " 5 true (by decide) (by decide)

/-- C3 counterexample: the basic SaleController.rejectSale (wired on
PATCH /:id/reject) resolves the pending sale although no reason exists in
its interface: it reports success, restores the stock to 5, appends no
StockMovement and stores no notes, so the claim that every reject requires
a non-empty reason and appends a movement fails on this path. -/
theorem C3_counterexample :
    (basicRejectSale pendDb 1 (some exAdmin)).success = true ∧
    (basicRejectSale pendDb 1 (some exAdmin)).db.movements = [] ∧
    (findProduct (basicRejectSale pendDb 1 (some exAdmin)).db 1).map
      (fun p => p.qtyInStock) = some 5 ∧
    (findSale (basicRejectSale pendDb 1 (some exAdmin)).db 1).map
      (fun s => s.status) = some SaleStatus.rejected ∧
    (findSale (basicRejectSale pendDb 1 (some exAdmin)).db 1).map
      (fun s => s.notes) = some none := by
  decide

lemma strContains_status (st : SaleStatus) :
    strContains ("Sale is " ++ st.str ++ ", not pending approval") st.str = true := by
  cases st <;> decide

lemma strContains_already (st : SaleStatus) :
    strContains ("Sale is already " ++ st.str) st.str = true := by
  cases st <;> decide

/-- C2 amended: invoking approve or reject on an already-resolved sale
leaves the store unchanged on every path; the live admin controller and
the basic sale controller answer with a message that contains the current
status of the sale, while the legacy approve variant answers the fixed
message "Sale is not pending approval", which does not name the status
(see the counterexample). -/
theorem C2_amended_invalid_transition :
    (∀ (db : DB) (sid : Nat) (u : User) (notes : Option String) (now : Nat) (emitOk : Bool)
       (sale : Sale), u.role = Role.admin → findSale db sid = some sale →
       ¬ sale.status = SaleStatus.pending →
       approveSale db sid (some u) notes now emitOk =
         { db := db, status := 400, success := false,
           message := "Sale is " ++ sale.status.str ++ ", not pending approval" } ∧
       strContains (approveSale db sid (some u) notes now emitOk).message
         sale.status.str = true) ∧
    (∀ (db : DB) (sid : Nat) (u : User) (r : String) (now : Nat) (emitOk : Bool)
       (sale : Sale), u.role = Role.admin → ¬ blank r = true →
       findSale db sid = some sale → ¬ sale.status = SaleStatus.pending →
       rejectSale db sid (some u) (some r) now emitOk =
         { db := db, status := 400, success := false,
           message := "Sale is " ++ sale.status.str ++ ", not pending approval" } ∧
       strContains (rejectSale db sid (some u) (some r) now emitOk).message
         sale.status.str = true) ∧
    (∀ (db : DB) (sid : Nat) (u : User) (now : Nat) (sale : Sale),
       findSale db sid = some sale → ¬ sale.status = SaleStatus.pending →
       basicApproveSale db sid (some u) now =
         { db := db, status := 400, success := false,
           message := "Sale is already " ++ sale.status.str } ∧
       strContains (basicApproveSale db sid (some u) now).message sale.status.str = true) ∧
    (∀ (db : DB) (sid : Nat) (u : User) (sale : Sale),
       findSale db sid = some sale → ¬ sale.status = SaleStatus.pending →
       basicRejectSale db sid (some u) =
         { db := db, status := 400, success := false,
           message := "Sale is already " ++ sale.status.str } ∧
       strContains (basicRejectSale db sid (some u)).message sale.status.str = true) ∧
    (∀ (db : DB) (sid : Nat) (u : User) (now : Nat) (sale : Sale),
       findSale db sid = some sale → ¬ sale.status = SaleStatus.pending →
       legacyApproveSale db sid u now =
         { db := db, status := 400, success := false,
           message := "Sale is not pending approval" }) := by
  refine ⟨?_, ?_, ?_, ?_, ?_⟩
  · intro db sid u notes now emitOk sale hrole hfind hstat
    have h : approveSale db sid (some u) notes now emitOk =
        { db := db, status := 400, success := false,
          message := "Sale is " ++ sale.status.str ++ ", not pending approval" } := by
      simp [approveSale, hrole, hfind, hstat]
    exact ⟨h, by rw [h]; exact strContains_status sale.status⟩
  · intro db sid u r now emitOk sale hrole hr hfind hstat
    have h : rejectSale db sid (some u) (some r) now emitOk =
        { db := db, status := 400, success := false,
          message := "Sale is " ++ sale.status.str ++ ", not pending approval" } := by
      simp [rejectSale, hrole, hr, hfind, hstat]
    exact ⟨h, by rw [h]; exact strContains_status sale.status⟩
  · intro db sid u now sale hfind hstat
    have h : basicApproveSale db sid (some u) now =
        { db := db, status := 400, success := false,
          message := "Sale is already " ++ sale.status.str } := by
      simp [basicApproveSale, hfind, hstat]
    exact ⟨h, by rw [h]; exact strContains_already sale.status⟩
  · intro db sid u sale hfind hstat
    have h : basicRejectSale db sid (some u) =
        { db := db, status := 400, success := false,
          message := "Sale is already " ++ sale.status.str } := by
      simp [basicRejectSale, hfind, hstat]
    exact ⟨h, by rw [h]; exact strContains_already sale.status⟩
  · intro db sid u now sale hfind hstat
    simp [legacyApproveSale, hfind, hstat]

/-- Witness for C2 at the resolved store: re-approving and re-rejecting
the already-approved sale 1 leaves the store unchanged on every path and
the paths carrying the status in their message do contain "approved". -/
theorem C2_amended_witness :
    (approveSale apprDb 1 (some exAdmin) none 5 true =
       { db := apprDb, status := 400, success := false,
         message := "Sale is " ++ apprSale.status.str ++ ", not pending approval" } ∧
     strContains (approveSale apprDb 1 (some exAdmin) none 5 true).message
       apprSale.status.str = true) ∧
    (rejectSale apprDb 1 (some exAdmin) (some "bad") 5 true =
       { db := apprDb, status := 400, success := false,
         message := "Sale is " ++ apprSale.status.str ++ ", not pending approval" } ∧
     strContains (rejectSale apprDb 1 (some exAdmin) (some "bad") 5 true).message
       apprSale.status.str = true) ∧
    (basicApproveSale apprDb 1 (some exEmp) 5 =
       { db := apprDb, status := 400, success := false,
         message := "Sale is already " ++ apprSale.status.str } ∧
     strContains (basicApproveSale apprDb 1 (some exEmp) 5).message
       apprSale.status.str = true) ∧
    (basicRejectSale apprDb 1 (some exEmp) =
       { db := apprDb, status := 400, success := false,
         message := "Sale is already " ++ apprSale.status.str } ∧
     strContains (basicRejectSale apprDb 1 (some exEmp)).message
       apprSale.status.str = true) ∧
    legacyApproveSale apprDb 1 exAdmin 5 =
      { db := apprDb, status := 400, success := false,
        message := "Sale is not pending approval" } :=
  ⟨C2_amended_invalid_transition.1 apprDb 1 exAdmin none 5 true apprSale
     (by decide) (by decide) (by decide),
   C2_amended_invalid_transition.2.1 apprDb 1 exAdmin "bad" 5 true apprSale
     (by decide) (by decide) (by decide) (by decide),
   C2_amended_invalid_transition.2.2.1 apprDb 1 exEmp 5 apprSale (by decide) (by decide),
   C2_amended_invalid_transition.2.2.2.1 apprDb 1 exEmp apprSale (by decide) (by decide),
   C2_amended_invalid_transition.2.2.2.2 apprDb 1 exAdmin 5 apprSale (by decide) (by decide)⟩

/-- C2 counterexample: the legacy approve variant rejects the second
approval of the approved sale 1 with the fixed message
"Sale is not pending approval", which does not contain the current status
"approved", so the claim that the error message always includes the
current status fails on this path. -/
theorem C2_counterexample :
    legacyApproveSale apprDb 1 exAdmin 5 =
      { db := apprDb, status := 400, success := false,
        message := "Sale is not pending approval" } ∧
    (findSale apprDb 1).map (fun s => s.status) = some SaleStatus.approved ∧
    strContains "Sale is not pending approval" SaleStatus.approved.str = false := by
  decide

lemma rejectSale_db_pending (db : DB) (sid : Nat) (u : User) (r : String)
    (now : Nat) (emitOk : Bool) (sale : Sale)
    (hrole : u.role = Role.admin) (htrim : ¬ blank r = true)
    (hfind : findSale db sid = some sale) (hpend : sale.status = SaleStatus.pending) :
    (rejectSale db sid (some u) (some r) now emitOk).db = rejectedDB db sid u r now sale := by
  simp [rejectSale, hrole, htrim, hfind, hpend, rejectedDB, rejectMovement]

/-- The store state after the basic SaleController rejection: stock
restored, status and approver written, no movement appended. -/
def basicRejectedDB (db : DB) (sid adminId : Nat) (sale : Sale) : DB :=
  { db with products := updateProduct db.products sale.productId
                (fun p => { p with qtyInStock := p.qtyInStock + sale.qtySold }),
            sales := updateSale db.sales sid
                (fun s => { s with status := .rejected, approvedById := some adminId }) }

lemma basicRejectSale_db_pending (db : DB) (sid : Nat) (u : User) (sale : Sale)
    (hfind : findSale db sid = some sale) (hpend : sale.status = SaleStatus.pending) :
    (basicRejectSale db sid (some u)).db = basicRejectedDB db sid u.id sale := by
  simp [basicRejectSale, hfind, hpend, basicRejectedDB]

lemma findProduct_createSale (db : DB) (pid : Nat) (qty : Int) (u : User)
    (c : Option String) (now : Nat) (product : Product)
    (hp : findProduct db pid = some product) (h1 : ¬ qty < 1)
    (hs : ¬ product.qtyInStock < qty) :
    findProduct (createSale db pid qty (some u) c now).db pid =
      (findProduct db pid).map (fun p => { p with qtyInStock := product.qtyInStock - qty }) := by
  simp only [createSale, if_neg h1, hp, if_neg hs]
  unfold findProduct
  dsimp only
  rw [find?_updateProduct db.products pid
    (fun p => { p with qtyInStock := product.qtyInStock - qty }) (fun p => rfl)]
  exact congrArg _ hp

lemma findProduct_sellProduct (db : DB) (pid : Nat) (qty : Int) (u : User)
    (now : Nat) (product : Product)
    (hp : findProduct db pid = some product) (h1 : ¬ qty < 1)
    (hs : ¬ product.qtyInStock < qty) :
    findProduct (sellProduct db pid qty (some u) now).db pid =
      (findProduct db pid).map (fun p => { p with qtyInStock := product.qtyInStock - qty }) := by
  simp only [sellProduct, if_neg h1, hp, if_neg hs]
  unfold findProduct
  dsimp only
  rw [find?_updateProduct db.products pid
    (fun p => { p with qtyInStock := product.qtyInStock - qty }) (fun p => rfl)]
  exact congrArg _ hp

/-- C6 amended: the createSale paths pair the creation-time stock
decrement with exactly one appended type-out StockMovement carrying
quantity, reason, acting user and timestamp, and the admin / realtime
reject transition pairs its restoration with exactly one appended type-in
StockMovement; but EmployeeController.sellProduct decrements the stock
with no StockMovement at all, and the basic SaleController.rejectSale
restores the stock with no StockMovement (see the counterexample). -/
theorem C6_amended_stock_movement_pairing :
    (∀ (db : DB) (pid : Nat) (qty : Int) (u : User) (c : Option String) (now : Nat)
       (product : Product), findProduct db pid = some product →
       ¬ qty < 1 → ¬ product.qtyInStock < qty →
       ∃ m : StockMovement,
         (createSale db pid qty (some u) c now).db.movements = db.movements ++ [m] ∧
         m.type = "out" ∧ m.quantity = qty ∧ m.recordedById = u.id ∧
         m.movementDate = now ∧
         m.reason = "Sale " ++ saleNumberFor db ++ " - Pending approval" ∧
         (findProduct (createSale db pid qty (some u) c now).db pid).map
           (fun p => p.qtyInStock) = some (product.qtyInStock - qty)) ∧
    (∀ (db : DB) (sid : Nat) (u : User) (r : String) (now : Nat) (emitOk : Bool)
       (sale : Sale), u.role = Role.admin → ¬ blank r = true →
       findSale db sid = some sale → sale.status = SaleStatus.pending →
       (rejectSale db sid (some u) (some r) now emitOk).db.movements =
         db.movements ++ [rejectMovement u r now sale] ∧
       (rejectMovement u r now sale).type = "in" ∧
       (rejectMovement u r now sale).quantity = sale.qtySold ∧
       (rejectMovement u r now sale).recordedById = u.id ∧
       (rejectMovement u r now sale).movementDate = now ∧
       findProduct (rejectSale db sid (some u) (some r) now emitOk).db sale.productId =
         (findProduct db sale.productId).map
           (fun p => { p with qtyInStock := p.qtyInStock + sale.qtySold })) ∧
    (∀ (db : DB) (pid : Nat) (qty : Int) (u : User) (now : Nat) (product : Product),
       findProduct db pid = some product → ¬ qty < 1 → ¬ product.qtyInStock < qty →
       (sellProduct db pid qty (some u) now).db.movements = db.movements ∧
       (findProduct (sellProduct db pid qty (some u) now).db pid).map
         (fun p => p.qtyInStock) = some (product.qtyInStock - qty)) ∧
    (∀ (db : DB) (sid : Nat) (u : User) (sale : Sale),
       findSale db sid = some sale → sale.status = SaleStatus.pending →
       (basicRejectSale db sid (some u)).db.movements = db.movements ∧
       findProduct (basicRejectSale db sid (some u)).db sale.productId =
         (findProduct db sale.productId).map
           (fun p => { p with qtyInStock := p.qtyInStock + sale.qtySold })) := by
  refine ⟨?_, ?_, ?_, ?_⟩
  · intro db pid qty u c now product hp h1 hs
    refine ⟨{ productId := pid, type := "out", quantity := qty,
              reason := "Sale " ++ saleNumberFor db ++ " - Pending approval",
              notes := some ("Sale to " ++ c.getD "Customer"),
              recordedById := u.id, movementDate := now },
            ?_, rfl, rfl, rfl, rfl, rfl, ?_⟩
    · simp only [createSale, if_neg h1, hp, if_neg hs]
    · rw [findProduct_createSale db pid qty u c now product hp h1 hs, hp]
      rfl
  · intro db sid u r now emitOk sale hrole htrim hfind hpend
    have h := rejectSale_db_pending db sid u r now emitOk sale hrole htrim hfind hpend
    refine ⟨by rw [h]; rfl, rfl, rfl, rfl, rfl, ?_⟩
    rw [h]
    exact findProduct_rejectedDB db sid u r now sale
  · intro db pid qty u now product hp h1 hs
    constructor
    · simp only [sellProduct, if_neg h1, hp, if_neg hs]
    · rw [findProduct_sellProduct db pid qty u now product hp h1 hs, hp]
      rfl
  · intro db sid u sale hfind hpend
    have h := basicRejectSale_db_pending db sid u sale hfind hpend
    refine ⟨by rw [h]; rfl, ?_⟩
    rw [h]
    unfold findProduct basicRejectedDB
    dsimp only
    rw [find?_updateProduct db.products sale.productId
      (fun p => { p with qtyInStock := p.qtyInStock + sale.qtySold }) (fun p => rfl)]

/-- Witness for C6: creating the scenario sale appends one type-out
movement of quantity 2 and leaves stock 3; the admin rejection appends one
type-in movement and restores the stock; sellProduct and the basic reject
leave the movement log untouched while changing the stock. -/
theorem C6_amended_witness :
    (∃ m : StockMovement,
       (createSale exDb 1 2 (some exEmp) none 0).db.movements = exDb.movements ++ [m] ∧
       m.type = "out" ∧ m.quantity = 2 ∧ m.recordedById = exEmp.id ∧ m.movementDate = 0 ∧
       m.reason = "Sale " ++ saleNumberFor exDb ++ " - Pending approval" ∧
       (findProduct (createSale exDb 1 2 (some exEmp) none 0).db 1).map
         (fun p => p.qtyInStock) = some (exProduct.qtyInStock - 2)) ∧
    ((rejectSale pendDb 1 (some exAdmin) (some "damaged") 5 true).db.movements =
       pendDb.movements ++ [rejectMovement exAdmin "damaged" 5 exSale] ∧
     (rejectMovement exAdmin "damaged" 5 exSale).type = "in" ∧
     (rejectMovement exAdmin "damaged" 5 exSale).quantity = exSale.qtySold ∧
     (rejectMovement exAdmin "damaged" 5 exSale).recordedById = exAdmin.id ∧
     (rejectMovement exAdmin "damaged" 5 exSale).movementDate = 5 ∧
     findProduct (rejectSale pendDb 1 (some exAdmin) (some "damaged") 5 true).db
         exSale.productId =
       (findProduct pendDb exSale.productId).map
         (fun p => { p with qtyInStock := p.qtyInStock + exSale.qtySold })) ∧
    ((sellProduct exDb 1 2 (some exEmp) 0).db.movements = exDb.movements ∧
     (findProduct (sellProduct exDb 1 2 (some exEmp) 0).db 1).map
       (fun p => p.qtyInStock) = some (exProduct.qtyInStock - 2)) ∧
    ((basicRejectSale pendDb 1 (some exEmp)).db.movements = pendDb.movements ∧
     findProduct (basicRejectSale pendDb 1 (some exEmp)).db exSale.productId =
       (findProduct pendDb exSale.productId).map
         (fun p => { p with qtyInStock := p.qtyInStock + exSale.qtySold })) :=
  ⟨C6_amended_stock_movement_pairing.1 exDb 1 2 exEmp none 0 exProduct
     (by decide) (by decide) (by decide),
   C6_amended_stock_movement_pairing.2.1 pendDb 1 exAdmin "damaged" 5 true exSale
     (by decide) (by decide) (by decide) (by decide),
   C6_amended_stock_movement_pairing.2.2.1 exDb 1 2 exEmp 0 exProduct
     (by decide) (by decide) (by decide),
   C6_amended_stock_movement_pairing.2.2.2 pendDb 1 exEmp exSale (by decide) (by decide)⟩

/-- C6 counterexample: EmployeeController.sellProduct succeeds, decrements
the stock from 5 to 3, and inserts no StockMovement row, so the claim that
every stock-changing operation inserts exactly one StockMovement in the
same transaction fails on this path. -/
theorem C6_counterexample :
    (sellProduct exDb 1 2 (some exEmp) 0).success = true ∧
    (findProduct (sellProduct exDb 1 2 (some exEmp) 0).db 1).map
      (fun p => p.qtyInStock) = some 3 ∧
    (sellProduct exDb 1 2 (some exEmp) 0).db.movements = [] := by
  decide

lemma approveOne_saleId (db : DB) (sid : Nat) (admin : User) (notes : Option String)
    (now : Nat) : (approveOne db sid admin notes now).2.1.saleId = sid := by
  unfold approveOne
  split
  · rfl
  split
  · rfl
  · rfl

lemma approveOne_fail (db : DB) (sid : Nat) (admin : User) (notes : Option String)
    (now : Nat) (h : (approveOne db sid admin notes now).2.1.success = false) :
    (approveOne db sid admin notes now).1 = db := by
  unfold approveOne at h ⊢
  revert h
  split
  · intro _
    rfl
  split
  · intro _
    rfl
  · intro h
    simp at h

lemma approveOne_events (db : DB) (sid : Nat) (admin : User) (notes : Option String)
    (now : Nat) : ∀ e ∈ (approveOne db sid admin notes now).2.2,
      e.name = "sale_status_updated" := by
  unfold approveOne
  split
  · intro e he
    simp at he
  split
  · intro e he
    simp at he
  · intro e he
    rcases List.mem_singleton.mp he with rfl
    rfl

lemma bulkLoop_saleIds (admin : User) (notes : Option String) (now : Nat) :
    ∀ (sids : List Nat) (db : DB),
      (bulkLoop admin notes now db sids).2.1.map (fun i => i.saleId) = sids := by
  intro sids
  induction sids with
  | nil => intro db; rfl
  | cons sid rest ih =>
    intro db
    show (approveOne db sid admin notes now).2.1.saleId ::
        (bulkLoop admin notes now (approveOne db sid admin notes now).1 rest).2.1.map
          (fun i => i.saleId) = sid :: rest
    rw [approveOne_saleId, ih]

lemma bulkLoop_events (admin : User) (notes : Option String) (now : Nat) :
    ∀ (sids : List Nat) (db : DB),
      ∀ e ∈ (bulkLoop admin notes now db sids).2.2, e.name = "sale_status_updated" := by
  intro sids
  induction sids with
  | nil =>
    intro db e he
    simp [bulkLoop] at he
  | cons sid rest ih =>
    intro db e he
    rcases List.mem_append.mp he with h1 | h2
    · exact approveOne_events db sid admin notes now e h1
    · exact ih _ e h2

lemma filter_success_split (l : List BulkItem) :
    (l.filter (fun i => i.success)).length + (l.filter (fun i => !i.success)).length
      = l.length := by
  induction l with
  | nil => rfl
  | cons a rest ih =>
    by_cases ha : a.success = true <;> simp [List.filter_cons, ha] <;> omega

/-- The bulk_approval_completed summary payload pushed to the admin room. -/
def bulkSummaryEvent (db' : DB) (total sc fc : Nat) : Event :=
  { room := "admin_sales_room", name := "bulk_approval_completed",
    count := some (countPending db'), totalProcessed := some total,
    successCount := some sc, failureCount := some fc }

/-- The pending-count payload pushed to the admin room after a bulk batch. -/
def bulkPendingEvent (db' : DB) : Event :=
  { room := "admin_sales_room", name := "pending_count_updated",
    count := some (countPending db'), action := some "bulk_approved" }

lemma bulkApproveSales_ok (db : DB) (sids : List Nat) (u : User) (notes : Option String)
    (now : Nat) (hrole : u.role = Role.admin) (hne : sids.isEmpty = false) :
    bulkApproveSales db sids (some u) notes now =
      { db := (bulkLoop u notes now db sids).1, status := 200, success := true,
        message := "Bulk approval completed: "
          ++ toString ((bulkLoop u notes now db sids).2.1.filter (fun i => i.success)).length
          ++ " approved, "
          ++ toString ((bulkLoop u notes now db sids).2.1.filter (fun i => !i.success)).length
          ++ " failed",
        results := (bulkLoop u notes now db sids).2.1,
        totalProcessed := sids.length,
        successCount := ((bulkLoop u notes now db sids).2.1.filter (fun i => i.success)).length,
        failureCount := ((bulkLoop u notes now db sids).2.1.filter (fun i => !i.success)).length,
        events := (bulkLoop u notes now db sids).2.2 ++
          [ bulkSummaryEvent (bulkLoop u notes now db sids).1 sids.length
              ((bulkLoop u notes now db sids).2.1.filter (fun i => i.success)).length
              ((bulkLoop u notes now db sids).2.1.filter (fun i => !i.success)).length,
            bulkPendingEvent (bulkLoop u notes now db sids).1 ] } := by
  simp [bulkApproveSales, hrole, hne, bulkSummaryEvent, bulkPendingEvent]

/-- C7 amended: the HTTP AdminController.bulkApproveSales processes the ids
sequentially through one per-id transaction (the fold of approveOne), a
per-id failure leaves the store of that step unchanged and processing
continues, the answer carries one result per id in order plus the
totalProcessed / successCount / failureCount aggregate, and after the
batch exactly one bulk_approval_completed summary and exactly one fresh
pending-count update go to the admin room.  The realtime bulk_approve_sales
socket handler emits no bulk_approval_completed event (see the
counterexample). -/
theorem C7_amended_http_bulk_approval (db : DB) (sids : List Nat) (u : User)
    (notes : Option String) (now : Nat)
    (hrole : u.role = Role.admin) (hne : sids.isEmpty = false) :
    (bulkApproveSales db sids (some u) notes now).db = (bulkLoop u notes now db sids).1 ∧
    (bulkApproveSales db sids (some u) notes now).totalProcessed = sids.length ∧
    (bulkApproveSales db sids (some u) notes now).results.map (fun i => i.saleId) = sids ∧
    (bulkApproveSales db sids (some u) notes now).successCount +
      (bulkApproveSales db sids (some u) notes now).failureCount = sids.length ∧
    (∀ (db2 : DB) (sid : Nat), (approveOne db2 sid u notes now).2.1.success = false →
       (approveOne db2 sid u notes now).1 = db2) ∧
    (bulkApproveSales db sids (some u) notes now).events.filter
        (fun e => e.name == "bulk_approval_completed") =
      [ bulkSummaryEvent (bulkLoop u notes now db sids).1 sids.length
          (bulkApproveSales db sids (some u) notes now).successCount
          (bulkApproveSales db sids (some u) notes now).failureCount ] ∧
    (bulkApproveSales db sids (some u) notes now).events.filter
        (fun e => e.name == "pending_count_updated") =
      [ bulkPendingEvent (bulkLoop u notes now db sids).1 ] := by
  have hch := bulkApproveSales_ok db sids u notes now hrole hne
  have hloopname : ∀ e ∈ (bulkLoop u notes now db sids).2.2,
      e.name = "sale_status_updated" := bulkLoop_events u notes now sids db
  have hnil1 : (bulkLoop u notes now db sids).2.2.filter
      (fun e => e.name == "bulk_approval_completed") = [] := by
    rw [List.filter_eq_nil]
    intro e he
    rw [hloopname e he]
    decide
  have hnil2 : (bulkLoop u notes now db sids).2.2.filter
      (fun e => e.name == "pending_count_updated") = [] := by
    rw [List.filter_eq_nil]
    intro e he
    rw [hloopname e he]
    decide
  refine ⟨by rw [hch], by rw [hch], ?_, ?_, ?_, ?_, ?_⟩
  · rw [hch]
    exact bulkLoop_saleIds u notes now sids db
  · rw [hch]
    dsimp only
    have hlen : (bulkLoop u notes now db sids).2.1.length = sids.length := by
      have := congrArg List.length (bulkLoop_saleIds u notes now sids db)
      simpa using this
    rw [← hlen]
    exact filter_success_split _
  · exact fun db2 sid h => approveOne_fail db2 sid u notes now h
  · rw [hch]
    dsimp only
    rw [List.filter_append, hnil1]
    simp [bulkSummaryEvent, bulkPendingEvent]
  · rw [hch]
    dsimp only
    rw [List.filter_append, hnil2]
    simp [bulkSummaryEvent, bulkPendingEvent]

/-- A second sale, already approved, for the mixed bulk batch. -/
def sale2 : Sale := { exSale with id := 2, status := .approved }

/-- Store for the mixed bulk batch: sale 1 pending, sale 2 approved. -/
def bulkDb : DB := { products := [exProduct3], sales := [exSale, sale2], movements := [] }

/-- Witness for C7: the mixed batch [1, 2, 99] (pending, approved,
nonexistent) reports three processed ids in order and the success and
failure counters sum to three. -/
theorem C7_amended_witness :
    (bulkApproveSales bulkDb [1, 2, 99] (some exAdmin) none 5).totalProcessed = 3 ∧
    (bulkApproveSales bulkDb [1, 2, 99] (some exAdmin) none 5).results.map
      (fun i => i.saleId) = [1, 2, 99] ∧
    (bulkApproveSales bulkDb [1, 2, 99] (some exAdmin) none 5).successCount +
      (bulkApproveSales bulkDb [1, 2, 99] (some exAdmin) none 5).failureCount = 3 := by
  have h := C7_amended_http_bulk_approval bulkDb [1, 2, 99] exAdmin none 5
    (by decide) (by decide)
  exact ⟨h.2.1, h.2.2.1, h.2.2.2.1⟩

/-- C7 counterexample: the realtime bulk_approve_sales handler approves the
one pending sale of the batch but emits no bulk_approval_completed summary
event at all, so the claim that every bulk approval ends with exactly one
such event fails on this path. -/
theorem C7_counterexample :
    (socketBulkApprove pendDb [1] (some exAdmin) none 5).successCount = 1 ∧
    (socketBulkApprove pendDb [1] (some exAdmin) none 5).events.filter
      (fun e => e.name == "bulk_approval_completed") = [] := by
  decide

/-- The pending-count payload pushed to the admin room after a single
approve or reject transition. -/
def pendingEventOf (db' : DB) (act : String) : Event :=
  { room := "admin_sales_room", name := "pending_count_updated",
    count := some (countPending db'), action := some act }

/-- The pending-count payload of the realtime bulk handler, which also
carries the two counters. -/
def sockBulkPendingEvent (db' : DB) (sc fc : Nat) : Event :=
  { room := "admin_sales_room", name := "pending_count_updated",
    count := some (countPending db'), action := some "bulk_approved",
    successCount := some sc, failureCount := some fc }

lemma socketBulkApprove_ok (db : DB) (sids : List Nat) (u : User) (notes : Option String)
    (now : Nat) (hrole : u.role = Role.admin) :
    socketBulkApprove db sids (some u) notes now =
      { db := (bulkLoop u notes now db sids).1, status := 0, success := true,
        message := "Bulk approval completed: "
          ++ toString ((bulkLoop u notes now db sids).2.1.filter (fun i => i.success)).length
          ++ " approved, "
          ++ toString ((bulkLoop u notes now db sids).2.1.filter (fun i => !i.success)).length
          ++ " failed",
        results := (bulkLoop u notes now db sids).2.1,
        totalProcessed := sids.length,
        successCount := ((bulkLoop u notes now db sids).2.1.filter (fun i => i.success)).length,
        failureCount := ((bulkLoop u notes now db sids).2.1.filter (fun i => !i.success)).length,
        events := (bulkLoop u notes now db sids).2.2 ++
          [ sockBulkPendingEvent (bulkLoop u notes now db sids).1
              ((bulkLoop u notes now db sids).2.1.filter (fun i => i.success)).length
              ((bulkLoop u notes now db sids).2.1.filter (fun i => !i.success)).length ] } := by
  simp [socketBulkApprove, hrole, sockBulkPendingEvent]

/-- C8: after an approve, a reject, and both bulk-approve paths, the one
pending-count payload pushed to the admin room carries the count freshly
recomputed on the committed store, countPending of the post-transition
state, together with the action that caused the change. -/
theorem C8_pending_count_fresh :
    (∀ (db : DB) (sid : Nat) (u : User) (notes : Option String) (now : Nat) (sale : Sale),
       u.role = Role.admin → findSale db sid = some sale →
       sale.status = SaleStatus.pending →
       (approveSale db sid (some u) notes now true).events.filter
           (fun e => e.name == "pending_count_updated") =
         [pendingEventOf (approveSale db sid (some u) notes now true).db "approved"]) ∧
    (∀ (db : DB) (sid : Nat) (u : User) (r : String) (now : Nat) (sale : Sale),
       u.role = Role.admin → ¬ blank r = true → findSale db sid = some sale →
       sale.status = SaleStatus.pending →
       (rejectSale db sid (some u) (some r) now true).events.filter
           (fun e => e.name == "pending_count_updated") =
         [pendingEventOf (rejectSale db sid (some u) (some r) now true).db "rejected"]) ∧
    (∀ (db : DB) (sids : List Nat) (u : User) (notes : Option String) (now : Nat),
       u.role = Role.admin → sids.isEmpty = false →
       (bulkApproveSales db sids (some u) notes now).events.filter
           (fun e => e.name == "pending_count_updated") =
         [bulkPendingEvent (bulkApproveSales db sids (some u) notes now).db]) ∧
    (∀ (db : DB) (sids : List Nat) (u : User) (notes : Option String) (now : Nat),
       u.role = Role.admin →
       (socketBulkApprove db sids (some u) notes now).events.filter
           (fun e => e.name == "pending_count_updated") =
         [sockBulkPendingEvent (socketBulkApprove db sids (some u) notes now).db
            (socketBulkApprove db sids (some u) notes now).successCount
            (socketBulkApprove db sids (some u) notes now).failureCount]) := by
  refine ⟨?_, ?_, ?_, ?_⟩
  · intro db sid u notes now sale hrole hfind hpend
    rw [approveSale_pending db sid u notes now true sale hrole hfind hpend]
    rfl
  · intro db sid u r now sale hrole htrim hfind hpend
    have h := rejectSale_db_pending db sid u r now true sale hrole htrim hfind hpend
    have hfull : rejectSale db sid (some u) (some r) now true =
        { db := rejectedDB db sid u r now sale, status := 200, success := true,
          message := "Sale rejected successfully and stock restored",
          events :=
            [ { room := "employee_" ++ toString sale.soldById ++ "_sales",
                name := "sale_status_updated" },
              { room := "admin_sales_room", name := "sale_rejected_broadcast" },
              pendingEventOf (rejectedDB db sid u r now sale) "rejected" ] } := by
      simp [rejectSale, hrole, htrim, hfind, hpend, rejectedDB, rejectMovement,
        pendingEventOf]
    rw [hfull]
    rfl
  · intro db sids u notes now hrole hne
    have hch := bulkApproveSales_ok db sids u notes now hrole hne
    have hloopname : ∀ e ∈ (bulkLoop u notes now db sids).2.2,
        e.name = "sale_status_updated" := bulkLoop_events u notes now sids db
    have hnil : (bulkLoop u notes now db sids).2.2.filter
        (fun e => e.name == "pending_count_updated") = [] := by
      rw [List.filter_eq_nil]
      intro e he
      rw [hloopname e he]
      decide
    rw [hch]
    dsimp only
    rw [List.filter_append, hnil]
    simp [bulkSummaryEvent, bulkPendingEvent]
  · intro db sids u notes now hrole
    have hch := socketBulkApprove_ok db sids u notes now hrole
    have hloopname : ∀ e ∈ (bulkLoop u notes now db sids).2.2,
        e.name = "sale_status_updated" := bulkLoop_events u notes now sids db
    have hnil : (bulkLoop u notes now db sids).2.2.filter
        (fun e => e.name == "pending_count_updated") = [] := by
      rw [List.filter_eq_nil]
      intro e he
      rw [hloopname e he]
      decide
    rw [hch]
    dsimp only
    rw [List.filter_append, hnil]
    simp [sockBulkPendingEvent]

/-- Witness for C8: in the concrete stores the approve, reject and both
bulk paths each push exactly one pending-count payload carrying the fresh
post-transition count. -/
theorem C8_witness :
    ((approveSale pendDb 1 (some exAdmin) none 5 true).events.filter
        (fun e => e.name == "pending_count_updated") =
      [pendingEventOf (approveSale pendDb 1 (some exAdmin) none 5 true).db "approved"]) ∧
    ((rejectSale pendDb 1 (some exAdmin) (some "damaged") 5 true).events.filter
        (fun e => e.name == "pending_count_updated") =
      [pendingEventOf (rejectSale pendDb 1 (some exAdmin) (some "damaged") 5 true).db
         "rejected"]) ∧
    ((bulkApproveSales bulkDb [1, 2, 99] (some exAdmin) none 5).events.filter
        (fun e => e.name == "pending_count_updated") =
      [bulkPendingEvent (bulkApproveSales bulkDb [1, 2, 99] (some exAdmin) none 5).db]) ∧
    ((socketBulkApprove pendDb [1] (some exAdmin) none 5).events.filter
        (fun e => e.name == "pending_count_updated") =
      [sockBulkPendingEvent (socketBulkApprove pendDb [1] (some exAdmin) none 5).db
         (socketBulkApprove pendDb [1] (some exAdmin) none 5).successCount
         (socketBulkApprove pendDb [1] (some exAdmin) none 5).failureCount]) :=
  ⟨C8_pending_count_fresh.1 pendDb 1 exAdmin none 5 exSale (by decide) (by decide) (by decide),
   C8_pending_count_fresh.2.1 pendDb 1 exAdmin "damaged" 5 exSale
     (by decide) (by decide) (by decide) (by decide),
   C8_pending_count_fresh.2.2.1 bulkDb [1, 2, 99] exAdmin none 5 (by decide) (by decide),
   C8_pending_count_fresh.2.2.2 pendDb [1] exAdmin none 5 (by decide)⟩

/-- C9 amended: in the HTTP admin controller, the socket emissions after
the commit sit in an inner try/catch, so whether the emission throws
(emitOk false) or not, the committed store and the whole HTTP response
(status, success flag, message) are identical; only the delivered events
differ.  In the realtime socket handlers the emissions share the outer try
with the transaction: an emission failure never undoes the commit (the
committed store is the same as on clean delivery), but the catch attempts
rollbackTransaction() on the already-committed transaction, which throws,
so the acknowledgment callback is never reached and the caller receives no
acknowledgment at all instead of the success acknowledgment (see the
counterexample). -/
theorem C9_amended_emit_failure_isolated_in_http :
    (∀ (db : DB) (sid : Nat) (u : Option User) (notes : Option String) (now : Nat),
       (approveSale db sid u notes now false).db = (approveSale db sid u notes now true).db ∧
       (approveSale db sid u notes now false).status =
         (approveSale db sid u notes now true).status ∧
       (approveSale db sid u notes now false).success =
         (approveSale db sid u notes now true).success ∧
       (approveSale db sid u notes now false).message =
         (approveSale db sid u notes now true).message) ∧
    (∀ (db : DB) (sid : Nat) (u : Option User) (reason : Option String) (now : Nat),
       (rejectSale db sid u reason now false).db = (rejectSale db sid u reason now true).db ∧
       (rejectSale db sid u reason now false).status =
         (rejectSale db sid u reason now true).status ∧
       (rejectSale db sid u reason now false).success =
         (rejectSale db sid u reason now true).success ∧
       (rejectSale db sid u reason now false).message =
         (rejectSale db sid u reason now true).message) ∧
    (∀ (db : DB) (sid : Nat) (u : Option User) (notes : Option String) (now : Nat),
       (socketApproveSale db sid u notes now false).db =
         (socketApproveSale db sid u notes now true).db) ∧
    (∀ (db : DB) (sid : Nat) (u : User) (notes : Option String) (now : Nat) (sale : Sale),
       u.role = Role.admin → findSale db sid = some sale →
       sale.status = SaleStatus.pending →
       (socketApproveSale db sid (some u) notes now false).ackDelivered = false ∧
       (socketApproveSale db sid (some u) notes now true).ackDelivered = true ∧
       (socketApproveSale db sid (some u) notes now true).success = true) ∧
    (∀ (db : DB) (sid : Nat) (u : Option User) (reason : Option String) (now : Nat),
       (socketRejectSale db sid u reason now false).db =
         (socketRejectSale db sid u reason now true).db) ∧
    (∀ (db : DB) (sid : Nat) (u : User) (r : String) (now : Nat) (sale : Sale),
       u.role = Role.admin → ¬ blank r = true → findSale db sid = some sale →
       sale.status = SaleStatus.pending →
       (socketRejectSale db sid (some u) (some r) now false).ackDelivered = false ∧
       (socketRejectSale db sid (some u) (some r) now true).ackDelivered = true ∧
       (socketRejectSale db sid (some u) (some r) now true).success = true) := by
  refine ⟨?_, ?_, ?_, ?_, ?_, ?_⟩
  · intro db sid u notes now
    unfold approveSale
    repeat' split
    all_goals exact ⟨rfl, rfl, rfl, rfl⟩
  · intro db sid u reason now
    unfold rejectSale
    repeat' split
    all_goals exact ⟨rfl, rfl, rfl, rfl⟩
  · intro db sid u notes now
    unfold socketApproveSale
    repeat' split
    all_goals rfl
  · intro db sid u notes now sale hrole hfind hpend
    refine ⟨?_, ?_, ?_⟩ <;> simp [socketApproveSale, hrole, hfind, hpend]
  · intro db sid u reason now
    unfold socketRejectSale
    repeat' split
    all_goals rfl
  · intro db sid u r now sale hrole htrim hfind hpend
    refine ⟨?_, ?_, ?_⟩ <;> simp [socketRejectSale, hrole, htrim, hfind, hpend]

/-- C9 counterexample: in the realtime approve handler an emission failure
after the commit leaves the sale approved in the store, the error escapes
the handler through the failing rollbackTransaction() in the catch, and
the caller receives no acknowledgment at all, where clean delivery hands
it a success acknowledgment; so the claim that delivery failures are
caught and logged and never change the caller-visible result of the
committed operation does not hold on the socket path. -/
theorem C9_counterexample :
    (findSale (socketApproveSale pendDb 1 (some exAdmin) none 5 false).db 1).map
      (fun s => s.status) = some SaleStatus.approved ∧
    (socketApproveSale pendDb 1 (some exAdmin) none 5 false).ackDelivered = false ∧
    (socketApproveSale pendDb 1 (some exAdmin) none 5 true).ackDelivered = true ∧
    (socketApproveSale pendDb 1 (some exAdmin) none 5 true).success = true := by
  decide

/-- The store state after the basic SaleController approval: status and
approver written (no approvedAt), aggregates updated. -/
def basicApprovedDB (db : DB) (sid adminId now : Nat) (sale : Sale) : DB :=
  { db with sales := updateSale db.sales sid
                (fun s => { s with status := .approved, approvedById := some adminId }),
            products := updateProduct db.products sale.productId
                (fun p => { p with totalProfit := p.totalProfit + sale.profit,
                                   totalSales := p.totalSales + sale.totalPrice,
                                   lastSaleDate := some now }) }

lemma basicApproveSale_db_pending (db : DB) (sid : Nat) (u : User) (now : Nat) (sale : Sale)
    (hfind : findSale db sid = some sale) (hpend : sale.status = SaleStatus.pending) :
    (basicApproveSale db sid (some u) now).db = basicApprovedDB db sid u.id now sale := by
  simp [basicApproveSale, hfind, hpend, basicApprovedDB]

lemma findSale_basicApprovedDB (db : DB) (sid adminId now : Nat) (sale : Sale)
    (hfind : findSale db sid = some sale) :
    findSale (basicApprovedDB db sid adminId now sale) sid =
      some { sale with status := .approved, approvedById := some adminId } := by
  unfold findSale basicApprovedDB
  dsimp only
  rw [find?_updateSale db.sales sid
    (fun s => { s with status := .approved, approvedById := some adminId }) (fun s => rfl)]
  unfold findSale at hfind
  rw [hfind]
  rfl

lemma findSale_basicRejectedDB (db : DB) (sid adminId : Nat) (sale : Sale)
    (hfind : findSale db sid = some sale) :
    findSale (basicRejectedDB db sid adminId sale) sid =
      some { sale with status := .rejected, approvedById := some adminId } := by
  unfold findSale basicRejectedDB
  dsimp only
  rw [find?_updateSale db.sales sid
    (fun s => { s with status := .rejected, approvedById := some adminId }) (fun s => rfl)]
  unfold findSale at hfind
  rw [hfind]
  rfl

/-- C10: the handlers wired on PATCH /:id/approve and PATCH /:id/reject
(basic SaleController behind the authenticate middleware) check only that
a user is present: with no user they answer 401, and with any
authenticated user, whatever the role, a pending sale is resolved
successfully, the user becoming the approver. -/
theorem C10_sale_routes_resolve_without_role_check :
    (∀ (db : DB) (sid : Nat) (u : User) (now : Nat) (sale : Sale),
       findSale db sid = some sale → sale.status = SaleStatus.pending →
       (basicApproveSale db sid (some u) now).status = 200 ∧
       (basicApproveSale db sid (some u) now).success = true ∧
       findSale (basicApproveSale db sid (some u) now).db sid =
         some { sale with status := .approved, approvedById := some u.id }) ∧
    (∀ (db : DB) (sid : Nat) (u : User) (sale : Sale),
       findSale db sid = some sale → sale.status = SaleStatus.pending →
       (basicRejectSale db sid (some u)).status = 200 ∧
       (basicRejectSale db sid (some u)).success = true ∧
       findSale (basicRejectSale db sid (some u)).db sid =
         some { sale with status := .rejected, approvedById := some u.id }) ∧
    (∀ (db : DB) (sid : Nat) (now : Nat),
       basicApproveSale db sid none now =
         { db := db, status := 401, success := false, message := "Authentication required" }) ∧
    (∀ (db : DB) (sid : Nat),
       basicRejectSale db sid none =
         { db := db, status := 401, success := false, message := "Authentication required" }) := by
  refine ⟨?_, ?_, fun db sid now => rfl, fun db sid => rfl⟩
  · intro db sid u now sale hfind hpend
    refine ⟨by simp [basicApproveSale, hfind, hpend],
            by simp [basicApproveSale, hfind, hpend], ?_⟩
    rw [basicApproveSale_db_pending db sid u now sale hfind hpend]
    exact findSale_basicApprovedDB db sid u.id now sale hfind
  · intro db sid u sale hfind hpend
    refine ⟨by simp [basicRejectSale, hfind, hpend],
            by simp [basicRejectSale, hfind, hpend], ?_⟩
    rw [basicRejectSale_db_pending db sid u sale hfind hpend]
    exact findSale_basicRejectedDB db sid u.id sale hfind

/-- Witness for C10: the employee (not an admin) approves the pending sale
through the sale-route handler, and in the second store also rejects one;
with no user the handlers answer 401. -/
theorem C10_witness :
    ((basicApproveSale pendDb 1 (some exEmp) 5).status = 200 ∧
     (basicApproveSale pendDb 1 (some exEmp) 5).success = true ∧
     findSale (basicApproveSale pendDb 1 (some exEmp) 5).db 1 =
       some { exSale with status := .approved, approvedById := some exEmp.id }) ∧
    ((basicRejectSale pendDb 1 (some exEmp)).status = 200 ∧
     (basicRejectSale pendDb 1 (some exEmp)).success = true ∧
     findSale (basicRejectSale pendDb 1 (some exEmp)).db 1 =
       some { exSale with status := .rejected, approvedById := some exEmp.id }) ∧
    basicApproveSale pendDb 1 none 5 =
      { db := pendDb, status := 401, success := false,
        message := "Authentication required" } :=
  ⟨C10_sale_routes_resolve_without_role_check.1 pendDb 1 exEmp 5 exSale
     (by decide) (by decide),
   C10_sale_routes_resolve_without_role_check.2.1 pendDb 1 exEmp exSale
     (by decide) (by decide),
   C10_sale_routes_resolve_without_role_check.2.2.1 pendDb 1 5⟩

/-- Witness for C9: at the concrete pending store, the HTTP approval
yields the same committed store and the same response whether the
notification emission fails or not, and in the realtime handlers the
commit equally stands while the acknowledgment goes undelivered exactly
when the emission fails. -/
theorem C9_amended_witness :
    ((approveSale pendDb 1 (some exAdmin) none 5 false).db =
       (approveSale pendDb 1 (some exAdmin) none 5 true).db ∧
     (approveSale pendDb 1 (some exAdmin) none 5 false).success =
       (approveSale pendDb 1 (some exAdmin) none 5 true).success ∧
     (approveSale pendDb 1 (some exAdmin) none 5 false).message =
       (approveSale pendDb 1 (some exAdmin) none 5 true).message) ∧
    ((socketApproveSale pendDb 1 (some exAdmin) none 5 false).ackDelivered = false ∧
     (socketApproveSale pendDb 1 (some exAdmin) none 5 true).ackDelivered = true ∧
     (socketApproveSale pendDb 1 (some exAdmin) none 5 true).success = true) ∧
    ((socketRejectSale pendDb 1 (some exAdmin) (some "damaged") 5 false).ackDelivered
       = false ∧
     (socketRejectSale pendDb 1 (some exAdmin) (some "damaged") 5 true).ackDelivered
       = true ∧
     (socketRejectSale pendDb 1 (some exAdmin) (some "damaged") 5 true).success = true) :=
  ⟨⟨(C9_amended_emit_failure_isolated_in_http.1 pendDb 1 (some exAdmin) none 5).1,
    (C9_amended_emit_failure_isolated_in_http.1 pendDb 1 (some exAdmin) none 5).2.2.1,
    (C9_amended_emit_failure_isolated_in_http.1 pendDb 1 (some exAdmin) none 5).2.2.2⟩,
   C9_amended_emit_failure_isolated_in_http.2.2.2.1 pendDb 1 exAdmin none 5 exSale
     (by decide) (by decide) (by decide),
   C9_amended_emit_failure_isolated_in_http.2.2.2.2.2 pendDb 1 exAdmin "damaged" 5 exSale
     (by decide) (by decide) (by decide) (by decide)⟩
